import Mathlib

/-!
# DartController (sky/engine/core/script/dart_controller.cc)

A shallow embedding of the isolate lifecycle controller.  The controller drives
the Dart embedding API; the engine is an external collaborator, so it is
modelled as an oracle that answers every call from the history of calls made so
far.  Every call the controller makes is appended to a trace together with the
engine's answer, and the properties below are statements about that trace, the
controller's fields and the way an operation ends (normal return, `exit(1)`,
or an abort from a failed check).
-/

namespace blink

/-! ## Data model -/

/-- A `Dart_Isolate` pointer; `none` is `nullptr`. -/
abbrev Dart_Isolate := Option Nat

/-- A `Dart_Handle`: the kinds of value the embedding API distinguishes. -/
inductive Dart_Handle where
  | null
  | string (s : String)
  | list (length : Nat)
  | object (id : Nat)
  | error (message : String)
  deriving DecidableEq, Repr

/-- Embeds `Dart_IsError`. -/
def Dart_IsError : Dart_Handle → Bool
  | .error _ => true
  | _ => false

/-- Embeds `Dart_IsList`. -/
def Dart_IsList : Dart_Handle → Bool
  | .list _ => true
  | _ => false

/-- Embeds `Dart_Null()`. -/
def Dart_Null : Dart_Handle := .null

/-- Embeds `ToDart(const char*)` / `ToDart(std::string)`. -/
def ToDart (s : String) : Dart_Handle := .string s

/-- Every call the controller makes on the engine or on a collaborator. -/
inductive Call where
  | Dart_CreateIsolate (script_uri main : String)
  | Dart_EnterIsolate (isolate : Dart_Isolate)
  | Dart_ExitIsolate
  | Dart_ShutdownIsolate
  | Dart_IsolateMakeRunnable (isolate : Dart_Isolate)
  | Dart_SetShouldPauseOnStart (should_pause : Bool)
  | Dart_SetLibraryTagHandler
  | Dart_EnterScope
  | Dart_ExitScope
  | Dart_FinalizeLoading (complete_futures : Bool)
  | Dart_LookupLibrary (url : Dart_Handle)
  | Dart_RootLibrary
  | Dart_LoadScriptFromSnapshot (buffer : List Nat)
  | Dart_LibraryImportLibrary (library imported pfx : Dart_Handle)
  | Dart_Invoke (target name : Dart_Handle) (arguments : List Dart_Handle)
  | LOG_ERROR (message : String)
  | set_quit_message_loop_when_isolate_exits (value : Bool)
  | message_handler_Initialize
  | DartIO_InitForIsolate
  | DartUI_InitForIsolate
  | DartMojoInternal_InitForIsolate
  | DartRuntimeHooks_Install (script_uri : String)
  | class_library_add_provider (library_name dart_library : String)
  | DartJni_InitForIsolate
  | set_library_provider (library_provider : Nat)
  | DartDependencyCatcher_enter
  | DartDependencyCatcher_leave
  | LoadScript (name : String)
  | WaitForDependencies (name : String)
  | LoadSnapshot (snapshot : Nat)
  deriving DecidableEq, Repr

/-- What a call answered. -/
inductive Reply where
  | void
  | handle (h : Dart_Handle)
  | isolate (i : Dart_Isolate) (error : String)
  | bool (b : Bool)
  deriving DecidableEq, Repr

/-- One entry of the trace: a call and its answer. -/
structure Event where
  call : Call
  reply : Reply
  deriving DecidableEq, Repr

/-- The environment of the controller: the engine's answers (each may depend on
the whole history of calls), and the build and host configuration that the
source reads but does not define. -/
structure Env where
  /-- answer of a call that returns a `Dart_Handle` -/
  handle : List Event → Call → Dart_Handle
  /-- isolate returned by `Dart_CreateIsolate` (`none`: creation refused) -/
  isolate : List Event → Call → Dart_Isolate
  /-- message stored through the `char** error` out-parameter -/
  error : List Event → Call → String
  /-- answer of `Dart_IsolateMakeRunnable` -/
  bool : List Event → Call → Bool
  /-- whether `DCHECK` is compiled in -/
  DCHECK_IS_ON : Bool
  /-- whether `OS_ANDROID` is defined -/
  OS_ANDROID : Bool
  /-- whether `Platform::current()` is non-null -/
  Platform_current : Bool
  /-- value of `SkySettings::Get().start_paused` -/
  start_paused : Bool

/-- The part of `UIDartState` the controller touches. -/
structure UIDartState where
  url : String
  isolate : Dart_Isolate
  deriving DecidableEq, Repr

/-- The `DartSnapshotLoader` owned through `snapshot_loader_`. -/
structure DartSnapshotLoader where
  snapshot : Nat
  deriving DecidableEq, Repr

/-- The fields of `DartController`. -/
structure DartController where
  ui_dart_state_ : Option UIDartState
  snapshot_loader_ : Option DartSnapshotLoader
  deriving DecidableEq, Repr

/-- The controller, the isolate entered on the calling thread, and the trace. -/
structure State where
  ctl : DartController
  current : Dart_Isolate
  trace : List Event
  deriving DecidableEq, Repr

/-- How an operation ends. -/
inductive Outcome (α : Type) where
  | returned (a : α)
  | exited (code : Nat)
  | aborted (why : String)
  deriving DecidableEq, Repr

/-- An operation of the controller. -/
def M (α : Type) : Type := Env → State → Outcome α × State

/-- Sequencing: `exit` and a failed check end the whole operation. -/
def M.bind {α β : Type} (m : M α) (f : α → M β) : M β := fun E s =>
  match m E s with
  | (.returned a, s1) => f a E s1
  | (.exited c, s1) => (.exited c, s1)
  | (.aborted w, s1) => (.aborted w, s1)

/-- Normal return. -/
def M.pure {α : Type} (a : α) : M α := fun _ s => (.returned a, s)

instance : Monad M where
  pure := M.pure
  bind := M.bind

/-! ## Primitives -/

/-- The configuration in force. -/
def getEnv : M Env := fun E s => (.returned E, s)

/-- The controller's fields. -/
def getCtl : M DartController := fun _ s => (.returned s.ctl, s)

/-- Assignment to the controller's fields. -/
def setCtl (c : DartController) : M Unit := fun _ s => (.returned (), { s with ctl := c })

/-- Embeds `exit(code)`: the process ends here, no destructor runs. -/
def exit {α : Type} (code : Nat) : M α := fun _ s => (.exited code, s)

/-- A failed `CHECK`/`DCHECK`/`DART_CHECK_VALID`, or a null dereference. -/
def abort {α : Type} (why : String) : M α := fun _ s => (.aborted why, s)

/-- A call on a collaborator that returns nothing. -/
def record (c : Call) : M Unit := fun _ s =>
  (.returned (), { s with trace := s.trace ++ [⟨c, .void⟩] })

/-- An engine call that returns a `Dart_Handle`. -/
def engineHandle (c : Call) : M Dart_Handle := fun E s =>
  (.returned (E.handle s.trace c),
   { s with trace := s.trace ++ [⟨c, .handle (E.handle s.trace c)⟩] })

/-- Embeds `Dart_CurrentIsolate()`: reads the isolate entered on the calling thread.  It
has no effect and is used only inside `DCHECK`, so it is not recorded. -/
def Dart_CurrentIsolate : M Dart_Isolate := fun _ s => (.returned s.current, s)

/-- Embeds `Dart_CreateIsolate`: on success the new isolate is the current one. -/
def Dart_CreateIsolate (script_uri main : String) : M (Dart_Isolate × String) := fun E s =>
  let c := Call.Dart_CreateIsolate script_uri main
  let i := E.isolate s.trace c
  let e := E.error s.trace c
  (.returned (i, e),
   { s with current := if i.isSome then i else s.current,
            trace := s.trace ++ [⟨c, .isolate i e⟩] })

/-- Embeds `Dart_EnterIsolate`. -/
def Dart_EnterIsolate (isolate : Dart_Isolate) : M Unit := fun _ s =>
  (.returned (), { s with current := isolate,
                          trace := s.trace ++ [⟨.Dart_EnterIsolate isolate, .void⟩] })

/-- Embeds `Dart_ExitIsolate`. -/
def Dart_ExitIsolate : M Unit := fun _ s =>
  (.returned (), { s with current := none, trace := s.trace ++ [⟨.Dart_ExitIsolate, .void⟩] })

/-- Embeds `Dart_ShutdownIsolate`: the current isolate is gone afterwards. -/
def Dart_ShutdownIsolate : M Unit := fun _ s =>
  (.returned (), { s with current := none, trace := s.trace ++ [⟨.Dart_ShutdownIsolate, .void⟩] })

/-- Embeds `Dart_IsolateMakeRunnable`. -/
def Dart_IsolateMakeRunnable (isolate : Dart_Isolate) : M Bool := fun E s =>
  let c := Call.Dart_IsolateMakeRunnable isolate
  (.returned (E.bool s.trace c), { s with trace := s.trace ++ [⟨c, .bool (E.bool s.trace c)⟩] })

/-- Embeds `dart_state()->`: dereferences `ui_dart_state_`. -/
def dart_state : M UIDartState := fun _ s =>
  match s.ctl.ui_dart_state_ with
  | some st => (.returned st, s)
  | none => (.aborted "null dereference of ui_dart_state_", s)

/-- Embeds `CHECK(condition) << message`. -/
def CHECK (condition : Bool) (message : String) : M Unit :=
  if condition then pure () else abort message

/-- Embeds `DCHECK(condition)`: the condition is evaluated only when `DCHECK` is compiled in. -/
def DCHECK (condition : M Bool) : M Unit := fun E s =>
  if E.DCHECK_IS_ON then
    match condition E s with
    | (.returned true, s1) => (.returned (), s1)
    | (.returned false, s1) => (.aborted "DCHECK failed", s1)
    | (.exited c, s1) => (.exited c, s1)
    | (.aborted w, s1) => (.aborted w, s1)
  else (.returned (), s)

/-- Modelled from the spec: `LogIfError` (flutter/tonic/dart_error.h) is not under
src/.  Section 4.1: "the controller logs the diagnostic"; it reports whether the
handle is an error handle and logs the error when it is. -/
def LogIfError (handle : Dart_Handle) : M Bool :=
  match handle with
  | .error message => do
      record (.LOG_ERROR message)
      pure true
  | _ => pure false

/-- Modelled from the spec: the macro `DART_CHECK_VALID` (dart_api.h) is not under
src/.  Section 7: a fallible operation that errors escalates to the fatal tier;
the macro aborts the process when the handle is an error handle. -/
def DART_CHECK_VALID (handle : Dart_Handle) : M Unit :=
  match handle with
  | .error message => abort message
  | _ => pure ()

/-- Modelled from the spec: `DartIsolateScope` (flutter/tonic) is not under src/.
Section 9: "a scoped-acquisition guard type that enters on construction". -/
def DartIsolateScope_enter (isolate : Dart_Isolate) : M Unit := Dart_EnterIsolate isolate

/-- Modelled from the spec: the end of a `DartIsolateScope`; Section 9: the guard
"exits" the context when the scope is left. -/
def DartIsolateScope_leave : M Unit := Dart_ExitIsolate

/-- Modelled from the spec: `DartApiScope` (flutter/tonic) is not under src/; it
opens an engine handle scope for the enclosing block. -/
def DartApiScope_enter : M Unit := record .Dart_EnterScope

/-- Modelled from the spec: the end of a `DartApiScope`. -/
def DartApiScope_leave : M Unit := record .Dart_ExitScope

/-- Modelled from the spec: `DartState::Scope` (flutter/tonic) is not under src/;
it enters the state's isolate and opens a handle scope. -/
def DartState_Scope_enter : M Unit := do
  let isolate := (← dart_state).isolate
  DartIsolateScope_enter isolate
  DartApiScope_enter

/-- Modelled from the spec: the end of a `DartState::Scope`. -/
def DartState_Scope_leave : M Unit := do
  DartApiScope_leave
  DartIsolateScope_leave

/-! ## The controller -/

namespace DartController

/-- Embeds `DartController::DartController()`. -/
def constructor : blink.DartController :=
  { ui_dart_state_ := none, snapshot_loader_ := none }

/-- Embeds `DartController::~DartController()`. -/
def destructor : M Unit := do
  let c ← getCtl
  match c.ui_dart_state_ with
  | some st => do
      -- Don't use a DartIsolateScope here since we never exit the isolate.
      Dart_EnterIsolate st.isolate
      Dart_ShutdownIsolate  -- deletes ui_dart_state_
      setCtl { c with ui_dart_state_ := none }
  | none => pure ()

/-- Embeds `DartController::SendStartMessage(Dart_Handle root_library)`. -/
def SendStartMessage (root_library : Dart_Handle) : M Bool := do
  -- Temporarily exit the isolate while we make it runnable.
  let isolate := (← dart_state).isolate
  DCHECK (do pure ((← Dart_CurrentIsolate) == isolate))
  Dart_ExitIsolate
  let _ ← Dart_IsolateMakeRunnable isolate
  Dart_EnterIsolate isolate
  -- Grab the 'dart:ui' library.
  let ui_library ← engineHandle (.Dart_LookupLibrary (ToDart "dart:ui"))
  DART_CHECK_VALID ui_library
  -- Grab the 'dart:isolate' library.
  let isolate_lib ← engineHandle (.Dart_LookupLibrary (ToDart "dart:isolate"))
  DART_CHECK_VALID isolate_lib
  -- Import the root library into the 'dart:ui' library.
  let _ ← engineHandle (.Dart_LibraryImportLibrary ui_library root_library Dart_Null)
  -- Get the closure of main().
  let main_closure ← engineHandle (.Dart_Invoke ui_library (ToDart "_getMainClosure") [])
  if (← LogIfError main_closure) then
    pure true
  else do
    -- Send the start message containing the entry point.
    let isolate_args := [main_closure, Dart_Null]
    let result ←
      engineHandle (.Dart_Invoke isolate_lib (ToDart "_startMainIsolate") isolate_args)
    LogIfError result

/-- Embeds `DartController::DidLoadMainLibrary(std::string name)`. -/
def DidLoadMainLibrary (name : String) : M Unit := do
  DCHECK (do pure ((← Dart_CurrentIsolate) == (← dart_state).isolate))
  DartApiScope_enter
  let finalized ← engineHandle (.Dart_FinalizeLoading true)
  CHECK (!(← LogIfError finalized)) "Check failed: !LogIfError(Dart_FinalizeLoading(true))"
  let library ← engineHandle (.Dart_LookupLibrary (ToDart name))
  if (← LogIfError library) then
    exit 1
  if (← SendStartMessage library) then
    exit 1
  DartApiScope_leave

/-- Embeds `DartController::DidLoadSnapshot()`. -/
def DidLoadSnapshot : M Unit := do
  DCHECK (do pure ((← Dart_CurrentIsolate) == none))
  setCtl { (← getCtl) with snapshot_loader_ := none }
  let isolate := (← dart_state).isolate
  DartIsolateScope_enter isolate
  DartApiScope_enter
  let library ← engineHandle .Dart_RootLibrary
  if (← LogIfError library) then
    exit 1
  if (← SendStartMessage library) then
    exit 1
  DartApiScope_leave
  DartIsolateScope_leave

/-- Embeds `DartController::RunFromPrecompiledSnapshot()`. -/
def RunFromPrecompiledSnapshot : M Unit :=
  DidLoadSnapshot

/-- Embeds `DartController::RunFromSnapshot(mojo::ScopedDataPipeConsumerHandle snapshot)`:
the loader is created and started; `DidLoadSnapshot` is bound as its callback. -/
def RunFromSnapshot (snapshot : Nat) : M Unit := do
  setCtl { (← getCtl) with snapshot_loader_ := some ⟨snapshot⟩ }
  record (.LoadSnapshot snapshot)

/-- Embeds `DartController::RunFromSnapshotBuffer(const uint8_t* buffer, size_t size)`. -/
def RunFromSnapshotBuffer (buffer : List Nat) : M Unit := do
  DartState_Scope_enter
  let _ ← LogIfError (← engineHandle (.Dart_LoadScriptFromSnapshot buffer))
  let library ← engineHandle .Dart_RootLibrary
  if (← LogIfError library) then
    exit 1
  if (← SendStartMessage library) then
    exit 1
  DartState_Scope_leave

/-- Embeds `DartController::RunFromLibrary(const std::string& name, DartLibraryProvider*)`:
the script load is started; `DidLoadMainLibrary(name)` is bound as the callback of
the dependency barrier. -/
def RunFromLibrary (name : String) (library_provider : Nat) : M Unit := do
  DartState_Scope_enter
  let _ ← dart_state  -- dart_state()->library_loader()
  record (.set_library_provider library_provider)
  record .DartDependencyCatcher_enter
  record (.LoadScript name)
  record (.WaitForDependencies name)
  record .DartDependencyCatcher_leave
  DartState_Scope_leave

/-- Embeds `DartController::CreateIsolateFor(std::unique_ptr<UIDartState> state)`. -/
def CreateIsolateFor (state : UIDartState) : M Unit := do
  let (isolate, error) ← Dart_CreateIsolate state.url "main"
  CHECK isolate.isSome error
  setCtl { (← getCtl) with ui_dart_state_ := some state }
  let _ ← dart_state  -- dart_state()->message_handler()
  record (.set_quit_message_loop_when_isolate_exits false)
  DCHECK (do pure (← getEnv).Platform_current)
  if !(← getEnv).Platform_current then
    abort "null dereference of Platform::current()"
  record .message_handler_Initialize
  record (.Dart_SetShouldPauseOnStart (← getEnv).start_paused)
  -- ui_dart_state_->SetIsolate(isolate)
  let st ← dart_state
  setCtl { (← getCtl) with ui_dart_state_ := some { st with isolate := isolate } }
  let tag_handler ← engineHandle .Dart_SetLibraryTagHandler
  CHECK (!(← LogIfError tag_handler))
    "Check failed: !LogIfError(Dart_SetLibraryTagHandler(DartLibraryTagHandler))"
  DartApiScope_enter
  record .DartIO_InitForIsolate
  record .DartUI_InitForIsolate
  record .DartMojoInternal_InitForIsolate
  record (.DartRuntimeHooks_Install (← dart_state).url)
  let _ ← dart_state  -- dart_state()->class_library()
  record (.class_library_add_provider "ui" "dart:ui")
  if (← getEnv).OS_ANDROID then
    record .DartJni_InitForIsolate
    let _ ← dart_state
    record (.class_library_add_provider "jni" "dart:jni")
  DartApiScope_leave
  Dart_ExitIsolate

end DartController

/-! ## Bootstrap paths and teardown -/

/-- The source a context is bootstrapped from: one constructor per `RunFrom...`. -/
inductive Source where
  | precompiled
  | snapshot (snapshot : Nat)
  | buffer (buffer : List Nat)
  | library (name : String) (library_provider : Nat)
  deriving DecidableEq, Repr

/-- Modelled from the spec: `DartSnapshotLoader` (flutter/tonic) is not under src/.
Section 4.3: `LoadSnapshot` "invokes `onComplete` exactly once"; the callback
bound by `RunFromSnapshot` is `DidLoadSnapshot`. -/
def DartSnapshotLoader_complete : M Unit :=
  DartController.DidLoadSnapshot

/-- Modelled from the spec: `DartLibraryLoader` (flutter/tonic) is not under src/.
Section 4.2: `onComplete` fires once, after every recorded identifier has finished
loading; the callback bound by `RunFromLibrary` is `DidLoadMainLibrary(name)`,
which requires the isolate to be entered, so the loader enters it around the
callback. -/
def DartLibraryLoader_complete (name : String) : M Unit := do
  DartIsolateScope_enter (← dart_state).isolate
  DartController.DidLoadMainLibrary name
  DartIsolateScope_leave

/-- One bootstrap: the `RunFrom...` operation and, for the two asynchronous
sources, its single completion callback. -/
def bootstrap : Source → M Unit
  | .precompiled => DartController.RunFromPrecompiledSnapshot
  | .snapshot snapshot => do
      DartController.RunFromSnapshot snapshot
      DartSnapshotLoader_complete
  | .buffer buffer => DartController.RunFromSnapshotBuffer buffer
  | .library name library_provider => do
      DartController.RunFromLibrary name library_provider
      DartLibraryLoader_complete name

/-- The teardown step (the body of `~DartController`) applied `n` times in sequence. -/
def teardown : Nat → M Unit
  | 0 => pure ()
  | n + 1 => do
      DartController.destructor
      teardown n

/-- A fresh controller on a thread with no isolate entered and no call made. -/
def State.init : State :=
  { ctl := DartController.constructor, current := none, trace := [] }

/-! ## Observations on runs -/

/-- How the operation ends. -/
def outcome {α : Type} (m : M α) (E : Env) (s : State) : Outcome α := (m E s).1

/-- The state the operation leaves. -/
def after {α : Type} (m : M α) (E : Env) (s : State) : State := (m E s).2

/-- The calls the operation makes, in order. -/
def calls {α : Type} (m : M α) (E : Env) (s : State) : List Event :=
  (after m E s).trace.drop s.trace.length

/-- A `Dart_IsolateMakeRunnable` call. -/
def isMakeRunnable (e : Event) : Bool :=
  match e.call with
  | .Dart_IsolateMakeRunnable _ => true
  | _ => false

/-- A `Dart_Invoke` of `_startMainIsolate`: the start message. -/
def isStartMessage (e : Event) : Bool :=
  match e.call with
  | .Dart_Invoke _ name _ => name == ToDart "_startMainIsolate"
  | _ => false

/-- A `Dart_Invoke` of `_getMainClosure`: the entry-point lookup. -/
def isMainClosureLookup (e : Event) : Bool :=
  match e.call with
  | .Dart_Invoke _ name _ => name == ToDart "_getMainClosure"
  | _ => false

/-- A call that answered with an error handle. -/
def isError (e : Event) : Bool :=
  match e.reply with
  | .handle h => Dart_IsError h
  | _ => false

/-- A call that enters, exits or shuts down an isolate. -/
def isIsolateSwitch (e : Event) : Bool :=
  match e.call with
  | .Dart_EnterIsolate _ => true
  | .Dart_ExitIsolate => true
  | .Dart_ShutdownIsolate => true
  | .Dart_CreateIsolate _ _ => true
  | _ => false

/-- The arguments a `Dart_Invoke` carries. -/
def arguments (e : Event) : List Dart_Handle :=
  match e.call with
  | .Dart_Invoke _ _ args => args
  | _ => []

/-- A failed entry-point lookup or a failed start-message dispatch. -/
def isStartFailure (e : Event) : Bool :=
  (isMainClosureLookup e || isStartMessage e) && isError e

/-- The call that resolves the root library of a bootstrap. -/
def rootCall : Source → Call
  | .library name _ => .Dart_LookupLibrary (ToDart name)
  | _ => .Dart_RootLibrary

/-- The first three calls of `SendStartMessage`. -/
def makeRunnableCalls (isolate : Dart_Isolate) (b : Bool) : List Event :=
  [⟨.Dart_ExitIsolate, .void⟩, ⟨.Dart_IsolateMakeRunnable isolate, .bool b⟩,
   ⟨.Dart_EnterIsolate isolate, .void⟩]

/-- The runs of `SendStartMessage`: the calls it makes and how it ends. -/
inductive StartRun (isolate : Dart_Isolate) (root : Dart_Handle) :
    List Event → Outcome Bool → Prop where
  | ui_invalid (b : Bool) (m : String) :
      StartRun isolate root
        (makeRunnableCalls isolate b ++
          [⟨.Dart_LookupLibrary (ToDart "dart:ui"), .handle (.error m)⟩])
        (.aborted m)
  | isolate_invalid (b : Bool) (ui : Dart_Handle) (m : String) (hui : Dart_IsError ui = false) :
      StartRun isolate root
        (makeRunnableCalls isolate b ++
          [⟨.Dart_LookupLibrary (ToDart "dart:ui"), .handle ui⟩,
           ⟨.Dart_LookupLibrary (ToDart "dart:isolate"), .handle (.error m)⟩])
        (.aborted m)
  | no_main (b : Bool) (ui lib imp : Dart_Handle) (m : String)
      (hui : Dart_IsError ui = false) (hlib : Dart_IsError lib = false) :
      StartRun isolate root
        (makeRunnableCalls isolate b ++
          [⟨.Dart_LookupLibrary (ToDart "dart:ui"), .handle ui⟩,
           ⟨.Dart_LookupLibrary (ToDart "dart:isolate"), .handle lib⟩,
           ⟨.Dart_LibraryImportLibrary ui root Dart_Null, .handle imp⟩,
           ⟨.Dart_Invoke ui (ToDart "_getMainClosure") [], .handle (.error m)⟩,
           ⟨.LOG_ERROR m, .void⟩])
        (.returned true)
  | start_failed (b : Bool) (ui lib imp closure : Dart_Handle) (m : String)
      (hui : Dart_IsError ui = false) (hlib : Dart_IsError lib = false)
      (hclosure : Dart_IsError closure = false) :
      StartRun isolate root
        (makeRunnableCalls isolate b ++
          [⟨.Dart_LookupLibrary (ToDart "dart:ui"), .handle ui⟩,
           ⟨.Dart_LookupLibrary (ToDart "dart:isolate"), .handle lib⟩,
           ⟨.Dart_LibraryImportLibrary ui root Dart_Null, .handle imp⟩,
           ⟨.Dart_Invoke ui (ToDart "_getMainClosure") [], .handle closure⟩,
           ⟨.Dart_Invoke lib (ToDart "_startMainIsolate") [closure, Dart_Null],
            .handle (.error m)⟩,
           ⟨.LOG_ERROR m, .void⟩])
        (.returned true)
  | started (b : Bool) (ui lib imp closure result : Dart_Handle)
      (hui : Dart_IsError ui = false) (hlib : Dart_IsError lib = false)
      (hclosure : Dart_IsError closure = false) (hresult : Dart_IsError result = false) :
      StartRun isolate root
        (makeRunnableCalls isolate b ++
          [⟨.Dart_LookupLibrary (ToDart "dart:ui"), .handle ui⟩,
           ⟨.Dart_LookupLibrary (ToDart "dart:isolate"), .handle lib⟩,
           ⟨.Dart_LibraryImportLibrary ui root Dart_Null, .handle imp⟩,
           ⟨.Dart_Invoke ui (ToDart "_getMainClosure") [], .handle closure⟩,
           ⟨.Dart_Invoke lib (ToDart "_startMainIsolate") [closure, Dart_Null],
            .handle result⟩])
        (.returned false)

/-- The runs of a caller of `SendStartMessage` once its prefix `pre` is done: it
resolves the root library with `root`, starts it, and on success makes the calls
`suf` of its closing scopes. -/
inductive RootRun (isolate : Dart_Isolate) (pre : List Event) (root : Call)
    (suf : List Event) : List Event → Outcome Unit → Prop where
  | root_error (m : String) :
      RootRun isolate pre root suf
        (pre ++ [⟨root, .handle (.error m)⟩, ⟨.LOG_ERROR m, .void⟩]) (.exited 1)
  | start_aborted (library : Dart_Handle) (sent : List Event) (w : String)
      (hlibrary : Dart_IsError library = false)
      (hsent : StartRun isolate library sent (.aborted w)) :
      RootRun isolate pre root suf (pre ++ ⟨root, .handle library⟩ :: sent) (.aborted w)
  | start_failed (library : Dart_Handle) (sent : List Event)
      (hlibrary : Dart_IsError library = false)
      (hsent : StartRun isolate library sent (.returned true)) :
      RootRun isolate pre root suf (pre ++ ⟨root, .handle library⟩ :: sent) (.exited 1)
  | started (library : Dart_Handle) (sent : List Event)
      (hlibrary : Dart_IsError library = false)
      (hsent : StartRun isolate library sent (.returned false)) :
      RootRun isolate pre root suf (pre ++ ⟨root, .handle library⟩ :: (sent ++ suf))
        (.returned ())

/-- The calls of `RunFromLibrary`, and the loader entering the isolate for the
completion callback. -/
def libraryLoadCalls (isolate : Dart_Isolate) (name : String) (library_provider : Nat) :
    List Event :=
  [⟨.Dart_EnterIsolate isolate, .void⟩, ⟨.Dart_EnterScope, .void⟩,
   ⟨.set_library_provider library_provider, .void⟩,
   ⟨.DartDependencyCatcher_enter, .void⟩,
   ⟨.LoadScript name, .void⟩,
   ⟨.WaitForDependencies name, .void⟩,
   ⟨.DartDependencyCatcher_leave, .void⟩,
   ⟨.Dart_ExitScope, .void⟩, ⟨.Dart_ExitIsolate, .void⟩,
   ⟨.Dart_EnterIsolate isolate, .void⟩]

/-- The calls of `bootstrap source` before the root library is resolved; `r` is the
answer of `Dart_LoadScriptFromSnapshot` or `Dart_FinalizeLoading` where there is one. -/
def bootPrefix (isolate : Dart_Isolate) (r : Dart_Handle) : Source → List Event
  | .precompiled =>
      [⟨.Dart_EnterIsolate isolate, .void⟩, ⟨.Dart_EnterScope, .void⟩]
  | .snapshot snapshot =>
      [⟨.LoadSnapshot snapshot, .void⟩,
       ⟨.Dart_EnterIsolate isolate, .void⟩, ⟨.Dart_EnterScope, .void⟩]
  | .buffer buffer =>
      [⟨.Dart_EnterIsolate isolate, .void⟩, ⟨.Dart_EnterScope, .void⟩,
       ⟨.Dart_LoadScriptFromSnapshot buffer, .handle r⟩] ++
      (match r with
       | .error m => [⟨.LOG_ERROR m, .void⟩]
       | _ => [])
  | .library name library_provider =>
      libraryLoadCalls isolate name library_provider ++
      [⟨.Dart_EnterScope, .void⟩, ⟨.Dart_FinalizeLoading true, .handle r⟩]

/-- The calls of a bootstrap after a successful start: its scopes are left. -/
def bootSuffix : List Event :=
  [⟨.Dart_ExitScope, .void⟩, ⟨.Dart_ExitIsolate, .void⟩]

/-- The calls of a successful `CreateIsolateFor`: `isolate` and `error` are what
`Dart_CreateIsolate` answered, `tag` what `Dart_SetLibraryTagHandler` answered. -/
def createCalls (E : Env) (url : String) (isolate : Dart_Isolate) (error : String)
    (tag : Dart_Handle) : List Event :=
  [⟨.Dart_CreateIsolate url "main", .isolate isolate error⟩,
   ⟨.set_quit_message_loop_when_isolate_exits false, .void⟩,
   ⟨.message_handler_Initialize, .void⟩,
   ⟨.Dart_SetShouldPauseOnStart E.start_paused, .void⟩,
   ⟨.Dart_SetLibraryTagHandler, .handle tag⟩,
   ⟨.Dart_EnterScope, .void⟩,
   ⟨.DartIO_InitForIsolate, .void⟩,
   ⟨.DartUI_InitForIsolate, .void⟩,
   ⟨.DartMojoInternal_InitForIsolate, .void⟩,
   ⟨.DartRuntimeHooks_Install url, .void⟩,
   ⟨.class_library_add_provider "ui" "dart:ui", .void⟩] ++
  (if E.OS_ANDROID then
     [⟨.DartJni_InitForIsolate, .void⟩, ⟨.class_library_add_provider "jni" "dart:jni", .void⟩]
   else []) ++
  [⟨.Dart_ExitScope, .void⟩, ⟨.Dart_ExitIsolate, .void⟩]

/-- The four binding installations of `CreateIsolateFor`. -/
def bindingCalls (url : String) : List Event :=
  [⟨.DartIO_InitForIsolate, .void⟩, ⟨.DartUI_InitForIsolate, .void⟩,
   ⟨.DartMojoInternal_InitForIsolate, .void⟩, ⟨.DartRuntimeHooks_Install url, .void⟩]

/-- An engine whose every call succeeds: handles are fresh objects, the isolate
is created, `DCHECK` is compiled in. -/
def succeeding : Env :=
  { handle := fun t _ => .object t.length
    isolate := fun _ _ => some 1
    error := fun _ _ => ""
    bool := fun _ _ => true
    DCHECK_IS_ON := true
    OS_ANDROID := false
    Platform_current := true
    start_paused := false }

/-- An engine that refuses to create an isolate. -/
def refusing : Env :=
  { succeeding with
    isolate := fun _ _ => none
    error := fun _ _ => "Isolate creation failed" }

/-- The engine `succeeding`, except that calls selected by `fails` answer an
error handle. -/
def failing (fails : Call → Bool) (message : String) : Env :=
  { succeeding with
    handle := fun t c => if fails c then .error message else .object t.length }

/-- An engine for which the snapshot buffer is malformed:
`Dart_LoadScriptFromSnapshot` answers an error, every other call succeeds. -/
def malformedSnapshot : Env :=
  failing (fun c => match c with
    | .Dart_LoadScriptFromSnapshot _ => true
    | _ => false) "malformed snapshot"

/-- An engine whose `Dart_RootLibrary` answers an error, every other call
succeeds. -/
def noRoot : Env :=
  failing (fun c => c == .Dart_RootLibrary) "no root library"

/-- An engine whose `Dart_LibraryImportLibrary` answers an error, every other
call succeeds. -/
def importFails : Env :=
  failing (fun c => match c with
    | .Dart_LibraryImportLibrary _ _ _ => true
    | _ => false) "import failed"

/-- An engine whose `_getMainClosure` answers an error, every other call
succeeds. -/
def noMain : Env :=
  failing (fun c => match c with
    | .Dart_Invoke _ name _ => name == ToDart "_getMainClosure"
    | _ => false) "no main"

/-- The state after `CreateIsolateFor` on a fresh controller. -/
def created (E : Env) (state : UIDartState) : State :=
  after (DartController.CreateIsolateFor state) E State.init

/-- The state in which `SendStartMessage` is called: the context is created and
its isolate entered. -/
def entered (E : Env) (state : UIDartState) : State :=
  after DartState_Scope_enter E (created E state)

/-- The runs of `bootstrap source` on a created context. -/
inductive BootRun (isolate : Dart_Isolate) (source : Source) :
    List Event → Outcome Unit → Prop where
  | finalize_failed (name : String) (library_provider : Nat) (m : String)
      (hsource : source = .library name library_provider) :
      BootRun isolate source
        (bootPrefix isolate (.error m) source ++ [⟨.LOG_ERROR m, .void⟩])
        (.aborted "Check failed: !LogIfError(Dart_FinalizeLoading(true))")
  | resolved (r : Dart_Handle) (new : List Event) (o : Outcome Unit)
      (hr : ∀ name library_provider, source = .library name library_provider →
        Dart_IsError r = false)
      (hrun : RootRun isolate (bootPrefix isolate r source) (rootCall source)
        bootSuffix new o) :
      BootRun isolate source new o


/-! ## Running the operations -/

open DartController

theorem bind_run {α β : Type} (m : M α) (f : α → M β) (E : Env) (s : State) :
    (m >>= f) E s = M.bind m f E s := rfl

theorem pure_run {α : Type} (a : α) (E : Env) (s : State) :
    (pure a : M α) E s = (.returned a, s) := rfl

theorem isError_cases (h : Dart_Handle) :
    (∃ m, h = .error m) ∨ Dart_IsError h = false := by
  cases h <;> simp [Dart_IsError]

theorem LogIfError_error (m : String) (E : Env) (s : State) :
    LogIfError (.error m) E s =
      (.returned true, { s with trace := s.trace ++ [⟨.LOG_ERROR m, .void⟩] }) := rfl

theorem LogIfError_valid (h : Dart_Handle) (E : Env) (s : State)
    (hh : Dart_IsError h = false) : LogIfError h E s = (.returned false, s) := by
  cases h <;> first | rfl | simp [Dart_IsError] at hh

theorem DART_CHECK_VALID_error (m : String) (E : Env) (s : State) :
    DART_CHECK_VALID (.error m) E s = (.aborted m, s) := rfl

theorem DART_CHECK_VALID_valid (h : Dart_Handle) (E : Env) (s : State)
    (hh : Dart_IsError h = false) : DART_CHECK_VALID h E s = (.returned (), s) := by
  cases h <;> first | rfl | simp [Dart_IsError] at hh

theorem DCHECK_current (E : Env) (s : State) (isolate : Dart_Isolate)
    (hcur : E.DCHECK_IS_ON = true → s.current = isolate) :
    DCHECK (do pure ((← Dart_CurrentIsolate) == isolate)) E s = (.returned (), s) := by
  unfold DCHECK
  by_cases h : E.DCHECK_IS_ON = true
  · simp [h, bind_run, pure_run, M.bind, Dart_CurrentIsolate, hcur h]
  · simp [h]

/-- Every run of `SendStartMessage` on a created context whose isolate is entered
has one of the five shapes of `StartRun`; the controller is untouched and the
isolate is entered again afterwards. -/
theorem SendStartMessage_run (E : Env) (s : State) (st : UIDartState) (root : Dart_Handle)
    (r : Outcome Bool × State) (hsend : SendStartMessage root E s = r)
    (hst : s.ctl.ui_dart_state_ = some st)
    (hcur : E.DCHECK_IS_ON = true → s.current = st.isolate) :
    ∃ new o, r = (o, { s with current := st.isolate, trace := s.trace ++ new })
      ∧ StartRun st.isolate root new o := by
  subst hsend
  simp only [SendStartMessage, bind_run, M.bind, dart_state, hst, DCHECK_current E s _ hcur,
    Dart_ExitIsolate, Dart_IsolateMakeRunnable, Dart_EnterIsolate, engineHandle]
  generalize E.bool _ _ = b
  generalize E.handle _ (.Dart_LookupLibrary (ToDart "dart:ui")) = ui
  rcases isError_cases ui with ⟨m, rfl⟩ | hui
  · refine ⟨_, _, ?_, StartRun.ui_invalid b m⟩
    simp [DART_CHECK_VALID_error, makeRunnableCalls]
  simp only [DART_CHECK_VALID_valid _ _ _ hui]
  generalize E.handle _ (.Dart_LookupLibrary (ToDart "dart:isolate")) = lib
  rcases isError_cases lib with ⟨m, rfl⟩ | hlib
  · refine ⟨_, _, ?_, StartRun.isolate_invalid b ui m hui⟩
    simp [DART_CHECK_VALID_error, makeRunnableCalls]
  simp only [DART_CHECK_VALID_valid _ _ _ hlib]
  generalize E.handle _ (.Dart_LibraryImportLibrary _ _ _) = imp
  generalize E.handle _ (.Dart_Invoke _ (ToDart "_getMainClosure") _) = closure
  rcases isError_cases closure with ⟨m, rfl⟩ | hclosure
  · refine ⟨_, _, ?_, StartRun.no_main b ui lib imp m hui hlib⟩
    simp [LogIfError_error, makeRunnableCalls, pure_run]
  simp only [LogIfError_valid _ _ _ hclosure, Bool.false_eq_true, if_false, bind_run, M.bind,
    engineHandle]
  generalize E.handle _ (.Dart_Invoke _ (ToDart "_startMainIsolate") _) = result
  rcases isError_cases result with ⟨m, rfl⟩ | hresult
  · refine ⟨_, _, ?_, StartRun.start_failed b ui lib imp closure m hui hlib hclosure⟩
    simp [LogIfError_error, makeRunnableCalls]
  · refine ⟨_, _, ?_, StartRun.started b ui lib imp closure result hui hlib hclosure hresult⟩
    simp [LogIfError_valid _ _ _ hresult, makeRunnableCalls]

/-- A run of `SendStartMessage` never ends in `exit`. -/
theorem StartRun.not_exited {isolate : Dart_Isolate} {root : Dart_Handle} {new : List Event}
    {c : Nat} (h : StartRun isolate root new (.exited c)) : False := by
  cases h

/-- Calls made before a caller starts extend its prefix. -/
theorem RootRun.prepend {isolate : Dart_Isolate} {pre suf new : List Event} {root : Call}
    {o : Outcome Unit} (p : List Event) (h : RootRun isolate pre root suf new o) :
    RootRun isolate (p ++ pre) root suf (p ++ new) o := by
  cases h with
  | root_error m =>
      rw [← List.append_assoc]
      exact RootRun.root_error m
  | start_aborted library sent w hlibrary hsent =>
      rw [← List.append_assoc]
      exact RootRun.start_aborted library sent w hlibrary hsent
  | start_failed library sent hlibrary hsent =>
      rw [← List.append_assoc]
      exact RootRun.start_failed library sent hlibrary hsent
  | started library sent hlibrary hsent =>
      rw [← List.append_assoc]
      exact RootRun.started library sent hlibrary hsent

/-- The runs of `DidLoadSnapshot` on a created context with no isolate entered. -/
theorem DidLoadSnapshot_run (E : Env) (s : State) (st : UIDartState)
    (res : Outcome Unit × State) (hres : DidLoadSnapshot E s = res)
    (hst : s.ctl.ui_dart_state_ = some st)
    (hcur : E.DCHECK_IS_ON = true → s.current = none) :
    ∃ new o s1, res = (o, s1) ∧ s1.trace = s.trace ++ new
      ∧ s1.ctl.ui_dart_state_ = some st ∧ (o = .returned () → s1.current = none)
      ∧ RootRun st.isolate (bootPrefix st.isolate .null .precompiled) .Dart_RootLibrary
          bootSuffix new o := by
  subst hres
  simp only [DidLoadSnapshot, bind_run, M.bind, DCHECK_current E s none hcur, getCtl, setCtl,
    dart_state, hst, DartIsolateScope_enter, Dart_EnterIsolate, DartApiScope_enter, record,
    engineHandle]
  generalize E.handle _ .Dart_RootLibrary = library
  rcases isError_cases library with ⟨m, rfl⟩ | hlib
  · simp only [LogIfError_error, ↓reduceIte, exit, bind_run, M.bind]
    refine ⟨_, _, _, rfl, ?_, ?_, ?_, RootRun.root_error m⟩
    · simp [bootPrefix]
    · simp [hst]
    · intro h
      cases h
  simp only [LogIfError_valid _ _ _ hlib, Bool.false_eq_true, ↓reduceIte, pure_run, bind_run,
    M.bind]
  generalize hsend : SendStartMessage library E _ = r
  obtain ⟨sent, o, rfl, hrun⟩ :=
    SendStartMessage_run E _ st library r hsend (by simp [hst]) (fun _ => rfl)
  rcases o with b | c | w
  · cases b
    · simp only [Bool.false_eq_true, ↓reduceIte, pure_run, bind_run, M.bind, DartApiScope_leave,
        DartIsolateScope_leave, record, Dart_ExitIsolate]
      refine ⟨_, _, _, rfl, ?_, ?_, ?_, RootRun.started library sent hlib hrun⟩
      · simp [bootPrefix, bootSuffix]
      · simp [hst]
      · intro _
        rfl
    · simp only [↓reduceIte, exit, bind_run, M.bind]
      refine ⟨_, _, _, rfl, ?_, ?_, ?_, RootRun.start_failed library sent hlib hrun⟩
      · simp [bootPrefix]
      · simp [hst]
      · intro h
        cases h
  · exact (hrun.not_exited).elim
  · refine ⟨_, _, _, rfl, ?_, ?_, ?_, RootRun.start_aborted library sent w hlib hrun⟩
    · simp [bootPrefix]
    · simp [hst]
    · intro h
      cases h

/-- The runs of `RunFromSnapshotBuffer` on a created context. -/
theorem RunFromSnapshotBuffer_run (E : Env) (s : State) (st : UIDartState) (buffer : List Nat)
    (hst : s.ctl.ui_dart_state_ = some st) :
    ∃ r new o s1, RunFromSnapshotBuffer buffer E s = (o, s1) ∧ s1.trace = s.trace ++ new
      ∧ s1.ctl.ui_dart_state_ = some st ∧ (o = .returned () → s1.current = none)
      ∧ RootRun st.isolate (bootPrefix st.isolate r (.buffer buffer)) .Dart_RootLibrary
          bootSuffix new o := by
  simp only [RunFromSnapshotBuffer, DartState_Scope_enter, bind_run, M.bind, dart_state, hst,
    DartIsolateScope_enter, Dart_EnterIsolate, DartApiScope_enter, record, engineHandle]
  generalize E.handle _ (.Dart_LoadScriptFromSnapshot buffer) = loaded
  have hlog : ∃ s0 : State, (∃ b, LogIfError loaded E
        { ctl := s.ctl, current := st.isolate,
          trace := s.trace ++ [⟨.Dart_EnterIsolate st.isolate, .void⟩] ++
            [⟨.Dart_EnterScope, .void⟩] ++
            [⟨.Dart_LoadScriptFromSnapshot buffer, .handle loaded⟩] } = (.returned b, s0))
      ∧ s0.trace = s.trace ++ bootPrefix st.isolate loaded (.buffer buffer)
      ∧ s0.ctl = s.ctl ∧ s0.current = st.isolate := by
    rcases isError_cases loaded with ⟨m, rfl⟩ | hloaded
    · exact ⟨_, ⟨_, LogIfError_error _ _ _⟩, by simp [bootPrefix], rfl, rfl⟩
    · refine ⟨_, ⟨_, LogIfError_valid _ _ _ hloaded⟩, ?_, rfl, rfl⟩
      cases loaded <;> first | (simp [Dart_IsError] at hloaded; done) | simp [bootPrefix]
  obtain ⟨s0, ⟨b0, hb0⟩, ht0, hc0, hcur0⟩ := hlog
  simp only [hb0]
  generalize E.handle _ .Dart_RootLibrary = library
  rcases isError_cases library with ⟨m, rfl⟩ | hlib
  · simp only [LogIfError_error, ↓reduceIte, exit, bind_run, M.bind]
    refine ⟨loaded, _, _, _, rfl, ?_, ?_, ?_, RootRun.root_error m⟩
    · simp [ht0]
    · simp [hc0, hst]
    · intro h
      cases h
  simp only [LogIfError_valid _ _ _ hlib, Bool.false_eq_true, ↓reduceIte, pure_run, bind_run,
    M.bind]
  generalize hsend : SendStartMessage library E _ = r
  obtain ⟨sent, o, rfl, hrun⟩ :=
    SendStartMessage_run E _ st library r hsend (by simp [hc0, hst])
      (fun _ => by simp [hcur0])
  rcases o with b | c | w
  · cases b
    · simp only [Bool.false_eq_true, ↓reduceIte, pure_run, bind_run, M.bind,
        DartState_Scope_leave, DartApiScope_leave, DartIsolateScope_leave, record,
        Dart_ExitIsolate]
      refine ⟨loaded, _, _, _, rfl, ?_, ?_, ?_, RootRun.started library sent hlib hrun⟩
      · simp [ht0, bootSuffix]
      · simp [hc0, hst]
      · intro _
        rfl
    · simp only [↓reduceIte, exit, bind_run, M.bind]
      refine ⟨loaded, _, _, _, rfl, ?_, ?_, ?_, RootRun.start_failed library sent hlib hrun⟩
      · simp [ht0]
      · simp [hc0, hst]
      · intro h
        cases h
  · exact (hrun.not_exited).elim
  · refine ⟨loaded, _, _, _, rfl, ?_, ?_, ?_, RootRun.start_aborted library sent w hlib hrun⟩
    · simp [ht0]
    · simp [hc0, hst]
    · intro h
      cases h

/-- The calls of `DidLoadMainLibrary` before the root library is resolved. -/
theorem DidLoadMainLibrary_run (E : Env) (s : State) (st : UIDartState) (name : String)
    (res : Outcome Unit × State) (hres : DidLoadMainLibrary name E s = res)
    (hst : s.ctl.ui_dart_state_ = some st)
    (hcur : E.DCHECK_IS_ON = true → s.current = st.isolate) :
    ∃ r new o s1, res = (o, s1) ∧ s1.trace = s.trace ++ new
      ∧ s1.ctl = s.ctl ∧ (o = .returned () → s1.current = st.isolate)
      ∧ ((∃ m, r = .error m
            ∧ new = [⟨.Dart_EnterScope, .void⟩, ⟨.Dart_FinalizeLoading true, .handle r⟩,
                ⟨.LOG_ERROR m, .void⟩]
            ∧ o = .aborted "Check failed: !LogIfError(Dart_FinalizeLoading(true))")
        ∨ (Dart_IsError r = false
            ∧ RootRun st.isolate
                [⟨.Dart_EnterScope, .void⟩, ⟨.Dart_FinalizeLoading true, .handle r⟩]
                (.Dart_LookupLibrary (ToDart name)) [⟨.Dart_ExitScope, .void⟩] new o)) := by
  subst hres
  have hd : DCHECK (do pure ((← Dart_CurrentIsolate) == (← dart_state).isolate)) E s
      = (.returned (), s) := by
    unfold DCHECK
    by_cases h : E.DCHECK_IS_ON = true
    · simp [h, bind_run, pure_run, M.bind, Dart_CurrentIsolate, dart_state, hst, hcur h]
    · simp [h]
  simp only [DidLoadMainLibrary, bind_run, M.bind, hd, DartApiScope_enter, record, engineHandle]
  generalize E.handle _ (.Dart_FinalizeLoading true) = finalized
  rcases isError_cases finalized with ⟨m, rfl⟩ | hfin
  · simp only [LogIfError_error, CHECK, Bool.not_true, Bool.false_eq_true, ↓reduceIte, abort]
    refine ⟨.error m, [⟨.Dart_EnterScope, .void⟩,
      ⟨.Dart_FinalizeLoading true, .handle (.error m)⟩, ⟨.LOG_ERROR m, .void⟩], _, _, rfl, ?_,
      rfl, ?_, Or.inl ⟨m, rfl, rfl, rfl⟩⟩
    · simp
    · intro h
      cases h
  simp only [LogIfError_valid _ _ _ hfin, CHECK, Bool.not_false, ↓reduceIte, pure_run]
  generalize E.handle _ (.Dart_LookupLibrary (ToDart name)) = library
  rcases isError_cases library with ⟨m, rfl⟩ | hlib
  · simp only [LogIfError_error, ↓reduceIte, exit, bind_run, M.bind]
    refine ⟨finalized, _, _, _, rfl, ?_, rfl, ?_, Or.inr ⟨hfin, RootRun.root_error m⟩⟩
    · simp
    · intro h
      cases h
  simp only [LogIfError_valid _ _ _ hlib, Bool.false_eq_true, ↓reduceIte, pure_run, bind_run,
    M.bind]
  generalize hsend : SendStartMessage library E _ = r
  obtain ⟨sent, o, rfl, hrun⟩ :=
    SendStartMessage_run E _ st library r hsend hst (fun h => hcur h)
  rcases o with b | c | w
  · cases b
    · simp only [Bool.false_eq_true, ↓reduceIte, pure_run, bind_run, M.bind,
        DartApiScope_leave, record]
      refine ⟨finalized, _, _, _, rfl, ?_, rfl, ?_,
        Or.inr ⟨hfin, RootRun.started library sent hlib hrun⟩⟩
      · simp
      · intro _
        rfl
    · simp only [↓reduceIte, exit, bind_run, M.bind]
      refine ⟨finalized, _, _, _, rfl, ?_, rfl, ?_,
        Or.inr ⟨hfin, RootRun.start_failed library sent hlib hrun⟩⟩
      · simp
      · intro h
        cases h
  · exact (hrun.not_exited).elim
  · refine ⟨finalized, _, _, _, rfl, ?_, rfl, ?_,
      Or.inr ⟨hfin, RootRun.start_aborted library sent w hlib hrun⟩⟩
    · simp
    · intro h
      cases h

/-- Calls made after a caller has returned extend its suffix. -/
theorem RootRun.returned_append {isolate : Dart_Isolate} {pre suf new : List Event}
    {root : Call} (x : List Event) (h : RootRun isolate pre root suf new (.returned ())) :
    RootRun isolate pre root (suf ++ x) (new ++ x) (.returned ()) := by
  cases h with
  | started library sent hlibrary hsent =>
      have := @RootRun.started isolate pre root (suf ++ x) library sent hlibrary hsent
      simpa using this

/-- A run that does not return never reaches the suffix. -/
theorem RootRun.change_suffix {isolate : Dart_Isolate} {pre suf new : List Event}
    {root : Call} {o : Outcome Unit} (suf2 : List Event)
    (h : RootRun isolate pre root suf new o) (ho : o ≠ .returned ()) :
    RootRun isolate pre root suf2 new o := by
  cases h with
  | root_error m => exact RootRun.root_error m
  | start_aborted library sent w hlibrary hsent =>
      exact RootRun.start_aborted library sent w hlibrary hsent
  | start_failed library sent hlibrary hsent =>
      exact RootRun.start_failed library sent hlibrary hsent
  | started library sent hlibrary hsent => exact (ho rfl).elim

/-- Every run of a bootstrap on a created context with no isolate entered has one
of the shapes of `BootRun`; it only appends to the trace, keeps the context, and
leaves no isolate entered when it returns. -/
theorem bootstrap_run (E : Env) (s : State) (st : UIDartState) (source : Source)
    (hst : s.ctl.ui_dart_state_ = some st)
    (hcur : E.DCHECK_IS_ON = true → s.current = none) :
    ∃ new o s1, bootstrap source E s = (o, s1) ∧ s1.trace = s.trace ++ new
      ∧ s1.ctl.ui_dart_state_ = some st ∧ (o = .returned () → s1.current = none)
      ∧ BootRun st.isolate source new o := by
  cases source with
  | precompiled =>
      obtain ⟨new, o, s1, h, ht, hc, hn, hrun⟩ :=
        DidLoadSnapshot_run E s st _ rfl hst hcur
      exact ⟨new, o, s1, h, ht, hc, hn,
        BootRun.resolved .null new o (by intro _ _ h; cases h) hrun⟩
  | snapshot snapshot =>
      simp only [bootstrap, RunFromSnapshot, DartSnapshotLoader_complete, bind_run, M.bind,
        getCtl, setCtl, record]
      generalize hres : DidLoadSnapshot E _ = res
      obtain ⟨new, o, s1, rfl, ht, hc, hn, hrun⟩ :=
        DidLoadSnapshot_run E _ st res hres (by simp [hst]) (fun h => by simpa using hcur h)
      refine ⟨[⟨.LoadSnapshot snapshot, .void⟩] ++ new, o, s1, rfl, ?_, hc, hn,
        BootRun.resolved .null _ o (by intro _ _ h; cases h) ?_⟩
      · simp [ht]
      · exact RootRun.prepend [⟨.LoadSnapshot snapshot, .void⟩] hrun
  | buffer buffer =>
      obtain ⟨r, new, o, s1, h, ht, hc, hn, hrun⟩ := RunFromSnapshotBuffer_run E s st buffer hst
      exact ⟨new, o, s1, h, ht, hc, hn, BootRun.resolved r new o (by intro _ _ h; cases h) hrun⟩
  | library name library_provider =>
      simp only [bootstrap, RunFromLibrary, DartState_Scope_enter, DartState_Scope_leave,
        DartLibraryLoader_complete, bind_run, M.bind, dart_state, hst, pure_run,
        DartIsolateScope_enter, DartIsolateScope_leave, Dart_EnterIsolate, Dart_ExitIsolate,
        DartApiScope_enter, DartApiScope_leave, record]
      generalize hres : DidLoadMainLibrary name E _ = res
      obtain ⟨r, new, o, s1, rfl, ht, hc, hn, hrun⟩ :=
        DidLoadMainLibrary_run E _ st name res hres (by simp [hst]) (fun _ => rfl)
      simp only at ht hc
      have hc1 : s1.ctl.ui_dart_state_ = some st := by rw [hc, hst]
      rcases hrun with ⟨m, rfl, rfl, rfl⟩ | ⟨hr, hrun⟩
      · refine ⟨_, _, _, rfl, ?_, hc1, ?_, BootRun.finalize_failed name library_provider m rfl⟩
        · simp [ht, bootPrefix, libraryLoadCalls]
        · intro h
          cases h
      have hpre := RootRun.prepend (libraryLoadCalls st.isolate name library_provider) hrun
      rcases o with ⟨⟩ | c | w
      · refine ⟨_, _, _, rfl, ?_, hc1, fun _ => rfl,
          BootRun.resolved r _ _ (fun _ _ _ => hr)
            (hpre.returned_append [⟨.Dart_ExitIsolate, .void⟩])⟩
        simp [ht, libraryLoadCalls]
      · refine ⟨_, _, _, rfl, ?_, hc1, ?_,
          BootRun.resolved r _ _ (fun _ _ _ => hr) (hpre.change_suffix _ (by simp))⟩
        · simp [ht, libraryLoadCalls]
        · intro h
          cases h
      · refine ⟨_, _, _, rfl, ?_, hc1, ?_,
          BootRun.resolved r _ _ (fun _ _ _ => hr) (hpre.change_suffix _ (by simp))⟩
        · simp [ht, libraryLoadCalls]
        · intro h
          cases h


/-- The calls an operation makes, when its final trace extends the initial one. -/
theorem calls_eq {α : Type} (m : M α) (E : Env) (s : State) (new : List Event)
    (h : (m E s).2.trace = s.trace ++ new) : calls m E s = new := by
  simp [calls, after, h]

/-- When the engine refuses to create the isolate, `CreateIsolateFor` aborts with
the engine's message and the controller is untouched. -/
theorem CreateIsolateFor_refused (E : Env) (s : State) (state : UIDartState)
    (hengine : E.isolate s.trace (.Dart_CreateIsolate state.url "main") = none) :
    CreateIsolateFor state E s =
      (.aborted (E.error s.trace (.Dart_CreateIsolate state.url "main")),
        { s with trace := s.trace ++ [⟨.Dart_CreateIsolate state.url "main",
            .isolate none (E.error s.trace (.Dart_CreateIsolate state.url "main"))⟩] }) := by
  simp [CreateIsolateFor, bind_run, M.bind, Dart_CreateIsolate, hengine, CHECK, abort]

/-- Without a platform, `CreateIsolateFor` does not return. -/
theorem CreateIsolateFor_no_platform (E : Env) (s : State) (state : UIDartState) (i : Nat)
    (hengine : E.isolate s.trace (.Dart_CreateIsolate state.url "main") = some i)
    (hplatform : E.Platform_current = false) :
    ∃ w, outcome (CreateIsolateFor state) E s = .aborted w := by
  simp only [outcome, CreateIsolateFor, bind_run, M.bind, Dart_CreateIsolate, hengine, CHECK,
    Option.isSome_some, ↓reduceIte, pure_run, getCtl, setCtl, dart_state, record]
  by_cases h : E.DCHECK_IS_ON = true
  · exact ⟨_, by simp [DCHECK, h, bind_run, M.bind, getEnv, pure_run, hplatform]; rfl⟩
  · exact ⟨_, by simp [DCHECK, h, bind_run, M.bind, getEnv, pure_run, hplatform, abort]; rfl⟩

/-- With an isolate created and a platform, `CreateIsolateFor` returns exactly when
`Dart_SetLibraryTagHandler` succeeds, and then leaves the state described. -/
theorem CreateIsolateFor_created (E : Env) (s : State) (state : UIDartState) (i : Nat)
    (hengine : E.isolate s.trace (.Dart_CreateIsolate state.url "main") = some i)
    (hplatform : E.Platform_current = true) :
    ∃ t,
      (Dart_IsError (E.handle t .Dart_SetLibraryTagHandler) = true →
        ∃ w, outcome (CreateIsolateFor state) E s = .aborted w)
      ∧ (Dart_IsError (E.handle t .Dart_SetLibraryTagHandler) = false →
        CreateIsolateFor state E s =
        (.returned (),
          { ctl := { s.ctl with ui_dart_state_ := some { state with isolate := some i } }
            current := none
            trace := s.trace ++ createCalls E state.url (some i)
              (E.error s.trace (.Dart_CreateIsolate state.url "main"))
              (E.handle t .Dart_SetLibraryTagHandler) })) := by
  have hd : ∀ s1 : State, DCHECK (do pure (← getEnv).Platform_current) E s1
      = (.returned (), s1) := by
    intro s1
    unfold DCHECK
    by_cases h : E.DCHECK_IS_ON = true
    · simp [h, bind_run, pure_run, M.bind, getEnv, hplatform]
    · simp [h]
  simp only [outcome, CreateIsolateFor, bind_run, M.bind, Dart_CreateIsolate, hengine, CHECK,
    Option.isSome_some, ↓reduceIte, pure_run, getCtl, setCtl, dart_state, record, hd, getEnv,
    hplatform, Bool.not_true, Bool.false_eq_true, engineHandle]
  generalize htag : E.handle _ .Dart_SetLibraryTagHandler = tag
  obtain ⟨t, ht⟩ : ∃ t, E.handle t .Dart_SetLibraryTagHandler = tag := ⟨_, htag⟩
  clear htag
  refine ⟨t, ?_, ?_⟩
  · rw [ht]
    intro herr
    rcases isError_cases tag with ⟨m, rfl⟩ | hv
    · exact ⟨_, by simp [LogIfError_error, abort]; rfl⟩
    · rw [hv] at herr
      cases herr
  · rw [ht]
    intro hv
    simp only [LogIfError_valid _ _ _ hv, Bool.not_false, ↓reduceIte, pure_run,
      DartApiScope_enter, DartApiScope_leave, record]
    by_cases ha : E.OS_ANDROID = true
    · simp [ha, bind_run, M.bind, record, dart_state, pure_run, createCalls, Dart_ExitIsolate]
    · simp [ha, bind_run, M.bind, record, pure_run, createCalls, Dart_ExitIsolate]

/-- When `CreateIsolateFor` returns, the engine created an isolate, which is set
on the state object the controller now holds; no isolate is entered, and the
calls made are those of `createCalls`. -/
theorem CreateIsolateFor_returned (E : Env) (s : State) (state : UIDartState)
    (h : outcome (CreateIsolateFor state) E s = .returned ()) :
    ∃ i error tag, Dart_IsError tag = false ∧ after (CreateIsolateFor state) E s =
        { ctl := { s.ctl with ui_dart_state_ := some { state with isolate := some i } }
          current := none
          trace := s.trace ++ createCalls E state.url (some i) error tag } := by
  cases hengine : E.isolate s.trace (.Dart_CreateIsolate state.url "main") with
  | none =>
      rw [outcome, CreateIsolateFor_refused E s state hengine] at h
      cases h
  | some i =>
      cases hplatform : E.Platform_current with
      | false =>
          obtain ⟨w, hw⟩ := CreateIsolateFor_no_platform E s state i hengine hplatform
          rw [hw] at h
          cases h
      | true =>
          obtain ⟨t, hbad, hgood⟩ := CreateIsolateFor_created E s state i hengine hplatform
          cases htag : Dart_IsError (E.handle t .Dart_SetLibraryTagHandler) with
          | true =>
              obtain ⟨w, hw⟩ := hbad htag
              rw [hw] at h
              cases h
          | false =>
              exact ⟨i, _, _, htag, by rw [after, hgood htag]⟩

/-! ## Facts about the runs -/

/-- Every run of `SendStartMessage` makes the isolate runnable exactly once. -/
theorem StartRun.makeRunnable_count {isolate : Dart_Isolate} {root : Dart_Handle}
    {sent : List Event} {o : Outcome Bool} (h : StartRun isolate root sent o) :
    sent.countP isMakeRunnable = 1 := by
  cases h <;> simp [makeRunnableCalls, isMakeRunnable, List.countP_cons]

/-- Every run of `SendStartMessage` sends the start message at most once. -/
theorem StartRun.start_count_le {isolate : Dart_Isolate} {root : Dart_Handle}
    {sent : List Event} {o : Outcome Bool} (h : StartRun isolate root sent o) :
    sent.countP isStartMessage ≤ 1 := by
  cases h <;> simp [makeRunnableCalls, isStartMessage, List.countP_cons, ToDart]

/-- A run of `SendStartMessage` in which no call reports an error returns `false`. -/
theorem StartRun.start_no_error {isolate : Dart_Isolate} {root : Dart_Handle}
    {sent : List Event} {o : Outcome Bool} (h : StartRun isolate root sent o)
    (hok : ∀ e ∈ sent, isError e = false) : o = .returned false := by
  cases h <;> first | rfl | (exfalso; simp [makeRunnableCalls, isError, Dart_IsError] at hok)

/-- A run of `SendStartMessage` that returns `false` has sent the start message
once, to the library looked up as `dart:isolate`, with the closure that
`_getMainClosure` returned and `Dart_Null()`. -/
theorem StartRun.started_once {isolate : Dart_Isolate} {root : Dart_Handle}
    {sent : List Event} (h : StartRun isolate root sent (.returned false)) :
    ∃ ui lib closure result,
      sent.filter isStartMessage =
        [⟨.Dart_Invoke lib (ToDart "_startMainIsolate") [closure, Dart_Null], .handle result⟩]
      ∧ (⟨.Dart_LookupLibrary (ToDart "dart:isolate"), .handle lib⟩ : Event) ∈ sent
      ∧ (⟨.Dart_Invoke ui (ToDart "_getMainClosure") [], .handle closure⟩ : Event) ∈ sent := by
  cases h with
  | started b ui lib imp closure result hui hlib hclosure hresult =>
      refine ⟨ui, lib, closure, result, ?_, ?_, ?_⟩
      · simp [makeRunnableCalls, isStartMessage, List.filter_cons, ToDart]
      · simp
      · simp

/-- Before the root library is resolved no bootstrap makes the isolate runnable. -/
theorem bootPrefix_makeRunnable (isolate : Dart_Isolate) (r : Dart_Handle) (source : Source) :
    (bootPrefix isolate r source).countP isMakeRunnable = 0 := by
  cases source <;> cases r <;>
    simp [bootPrefix, libraryLoadCalls, isMakeRunnable, List.countP_cons]

/-- Before the root library is resolved no bootstrap sends the start message. -/
theorem bootPrefix_start (isolate : Dart_Isolate) (r : Dart_Handle) (source : Source) :
    (bootPrefix isolate r source).countP isStartMessage = 0 := by
  cases source <;> cases r <;>
    simp [bootPrefix, libraryLoadCalls, isStartMessage, List.countP_cons]

/-- The prefix of a bootstrap does not resolve the root library. -/
theorem bootPrefix_root (isolate : Dart_Isolate) (r : Dart_Handle) (source : Source) :
    (bootPrefix isolate r source).find? (fun e => e.call == rootCall source) = none := by
  cases source <;> cases r <;>
    simp [bootPrefix, libraryLoadCalls, rootCall]

/-- The prefix of a bootstrap invokes nothing. -/
theorem bootPrefix_invoke (isolate : Dart_Isolate) (r : Dart_Handle) (source : Source) :
    ∀ e ∈ bootPrefix isolate r source,
      isMainClosureLookup e = false ∧ isStartMessage e = false := by
  cases source <;> cases r <;>
    simp [bootPrefix, libraryLoadCalls, isMainClosureLookup, isStartMessage]

/-- The calls that close a bootstrap are neither a start message nor a
`Dart_IsolateMakeRunnable`. -/
theorem bootSuffix_counts :
    bootSuffix.countP isMakeRunnable = 0 ∧ bootSuffix.countP isStartMessage = 0 := by
  simp [bootSuffix, isMakeRunnable, isStartMessage, List.countP_cons]

/-- Resolving the root library is neither an invocation nor a
`Dart_IsolateMakeRunnable`. -/
theorem rootCall_plain (source : Source) (reply : Reply) :
    isMakeRunnable ⟨rootCall source, reply⟩ = false
    ∧ isStartMessage ⟨rootCall source, reply⟩ = false
    ∧ isMainClosureLookup ⟨rootCall source, reply⟩ = false := by
  cases source <;> simp [rootCall, isMakeRunnable, isStartMessage, isMainClosureLookup]

/-- One bootstrap makes the isolate runnable at most once and sends the start
message at most once. -/
theorem BootRun.counts_le {isolate : Dart_Isolate} {source : Source} {new : List Event}
    {o : Outcome Unit} (h : BootRun isolate source new o) :
    new.countP isMakeRunnable ≤ 1 ∧ new.countP isStartMessage ≤ 1 := by
  cases h with
  | finalize_failed name library_provider m hsource =>
      simp [List.countP_append, bootPrefix_makeRunnable, bootPrefix_start, isMakeRunnable,
        isStartMessage, List.countP_cons]
  | resolved r new o hr hrun =>
      cases hrun with
      | root_error m =>
          cases source <;>
            simp [List.countP_append, bootPrefix_makeRunnable, bootPrefix_start, isMakeRunnable,
              isStartMessage, List.countP_cons, rootCall]
      | start_aborted library sent w hlibrary hsent =>
          have h1 := hsent.makeRunnable_count
          have h2 := hsent.start_count_le
          simp [List.countP_append, bootPrefix_makeRunnable, bootPrefix_start,
            List.countP_cons, rootCall_plain, h1, h2]
      | start_failed library sent hlibrary hsent =>
          have h1 := hsent.makeRunnable_count
          have h2 := hsent.start_count_le
          simp [List.countP_append, bootPrefix_makeRunnable, bootPrefix_start,
            List.countP_cons, rootCall_plain, h1, h2]
      | started library sent hlibrary hsent =>
          have h1 := hsent.makeRunnable_count
          have h2 := hsent.start_count_le
          simp [List.countP_append, bootPrefix_makeRunnable, bootPrefix_start,
            List.countP_cons, rootCall_plain, h1, h2, bootSuffix_counts]

/-- The prefix of a bootstrap sends no start message. -/
theorem bootPrefix_filter (isolate : Dart_Isolate) (r : Dart_Handle) (source : Source) :
    (bootPrefix isolate r source).filter isStartMessage = [] := by
  rw [List.filter_eq_nil_iff]
  intro e he
  simp [(bootPrefix_invoke isolate r source e he).2]

/-- A bootstrap in which no call reports an error returns normally, having made
the isolate runnable once and sent the start message once. -/
theorem BootRun.boot_no_error {isolate : Dart_Isolate} {source : Source} {new : List Event}
    {o : Outcome Unit} (h : BootRun isolate source new o)
    (hok : ∀ e ∈ new, isError e = false) :
    o = .returned () ∧ new.countP isMakeRunnable = 1
    ∧ ∃ ui lib closure result,
      new.filter isStartMessage =
        [⟨.Dart_Invoke lib (ToDart "_startMainIsolate") [closure, Dart_Null], .handle result⟩]
      ∧ (⟨.Dart_LookupLibrary (ToDart "dart:isolate"), .handle lib⟩ : Event) ∈ new
      ∧ (⟨.Dart_Invoke ui (ToDart "_getMainClosure") [], .handle closure⟩ : Event) ∈ new := by
  cases h with
  | finalize_failed name library_provider m hsource =>
      subst hsource
      exfalso
      have := hok ⟨.Dart_FinalizeLoading true, .handle (.error m)⟩ (by simp [bootPrefix])
      simp [isError, Dart_IsError] at this
  | resolved r new o hr hrun =>
      cases hrun with
      | root_error m =>
          exfalso
          have := hok ⟨rootCall source, .handle (.error m)⟩ (by simp)
          simp [isError, Dart_IsError] at this
      | start_aborted library sent w hlibrary hsent =>
          have := hsent.start_no_error (fun e he => hok e (by simp [he]))
          cases this
      | start_failed library sent hlibrary hsent =>
          have := hsent.start_no_error (fun e he => hok e (by simp [he]))
          cases this
      | started library sent hlibrary hsent =>
          obtain ⟨ui, lib, closure, result, hfilter, hlib, hclosure⟩ := hsent.started_once
          refine ⟨rfl, ?_, ui, lib, closure, result, ?_, ?_, ?_⟩
          · simp [List.countP_append, bootPrefix_makeRunnable, List.countP_cons,
              rootCall_plain, hsent.makeRunnable_count, bootSuffix_counts]
          · have hsuf : bootSuffix.filter isStartMessage = [] := by
              simp [bootSuffix, isStartMessage]
            simp [List.filter_append, bootPrefix_filter, List.filter_cons, rootCall_plain,
              hfilter, hsuf]
          · simp [hlib]
          · simp [hclosure]

/-- A bootstrap whose root library resolves to an error handle ends in `exit(1)`
before the isolate is made runnable and before any start message. -/
theorem BootRun.root_error_exits {isolate : Dart_Isolate} {source : Source}
    {new : List Event} {o : Outcome Unit} (h : BootRun isolate source new o) (e : Event)
    (hfirst : new.find? (fun e => e.call == rootCall source) = some e)
    (herr : isError e = true) :
    o = .exited 1 ∧ new.countP isMakeRunnable = 0 ∧ new.countP isStartMessage = 0 := by
  cases h with
  | finalize_failed name library_provider m hsource =>
      subst hsource
      rw [List.find?_append, bootPrefix_root] at hfirst
      simp [rootCall] at hfirst
  | resolved r new o hr hrun =>
      cases hrun with
      | root_error m =>
          refine ⟨rfl, ?_, ?_⟩
          · cases source <;>
              simp [List.countP_append, bootPrefix_makeRunnable, isMakeRunnable,
                List.countP_cons, rootCall]
          · cases source <;>
              simp [List.countP_append, bootPrefix_start, isStartMessage,
                List.countP_cons, rootCall]
      | start_aborted library sent w hlibrary hsent =>
          simp [List.find?_append, bootPrefix_root] at hfirst
          subst hfirst
          simp [isError, hlibrary] at herr
      | start_failed library sent hlibrary hsent =>
          simp [List.find?_append, bootPrefix_root] at hfirst
          subst hfirst
          simp [isError, hlibrary] at herr
      | started library sent hlibrary hsent =>
          simp [List.find?_append, bootPrefix_root] at hfirst
          subst hfirst
          simp [isError, hlibrary] at herr

/-! ## Teardown -/

/-- The teardown step on a controller without a context does nothing. -/
theorem destructor_none (E : Env) (s : State) (h : s.ctl.ui_dart_state_ = none) :
    destructor E s = (.returned (), s) := by
  simp [destructor, bind_run, M.bind, getCtl, h, pure_run]

/-- Repeating the teardown step on a controller without a context does nothing. -/
theorem teardown_none (E : Env) (s : State) (h : s.ctl.ui_dart_state_ = none) (k : Nat) :
    teardown k E s = (.returned (), s) := by
  induction k with
  | zero => rfl
  | succ k ih => simp [teardown, bind_run, M.bind, destructor_none E s h, ih]

/-- The teardown step on a controller with a context enters the isolate, shuts it
down and clears `ui_dart_state_`. -/
theorem destructor_some (E : Env) (s : State) (st : UIDartState)
    (h : s.ctl.ui_dart_state_ = some st) :
    destructor E s =
      (.returned (),
        { ctl := { s.ctl with ui_dart_state_ := none }
          current := none
          trace := s.trace ++
            [⟨.Dart_EnterIsolate st.isolate, .void⟩, ⟨.Dart_ShutdownIsolate, .void⟩] }) := by
  simp [destructor, bind_run, M.bind, getCtl, h, Dart_EnterIsolate, Dart_ShutdownIsolate, setCtl]

/-- C2: applying the teardown step `n ≥ 1` times to a controller whose context was
created performs `Dart_ShutdownIsolate` exactly once, right after exactly one
`Dart_EnterIsolate` of that context, and makes no other call; the first
application sets `ui_dart_state_` to null, and any number of later applications
make no call and leave the state unchanged. -/
theorem teardown_shuts_down_once (E : Env) (s : State) (st : UIDartState) (n : Nat)
    (hst : s.ctl.ui_dart_state_ = some st) (hn : 1 ≤ n) :
    outcome (teardown n) E s = .returned ()
    ∧ calls (teardown n) E s =
        [⟨.Dart_EnterIsolate st.isolate, .void⟩, ⟨.Dart_ShutdownIsolate, .void⟩]
    ∧ (after destructor E s).ctl.ui_dart_state_ = none
    ∧ after (teardown n) E s = after destructor E s
    ∧ ∀ k, teardown k E (after destructor E s) = (.returned (), after destructor E s) := by
  obtain ⟨m, rfl⟩ : ∃ m, n = m + 1 := ⟨n - 1, by omega⟩
  have h1 := destructor_some E s st hst
  have h2 : ∀ k, teardown k E (after destructor E s) = (.returned (), after destructor E s) :=
    fun k => teardown_none E _ (by simp [after, h1]) k
  have h3 : teardown (m + 1) E s = (.returned (), after destructor E s) := by
    have := h2 m
    simp only [after, h1] at this
    simp [teardown, bind_run, M.bind, h1, after, this]
  refine ⟨by simp [outcome, h3], ?_, by simp [after, h1], by simp [after, h3], h2⟩
  simp [calls, after, h3, h1]

/-- C2 at a concrete input: three teardown steps after a successful
`CreateIsolateFor` on the engine `succeeding`. -/
theorem teardown_shuts_down_once_witness :
    outcome (teardown 3) succeeding (created succeeding ⟨"app://main", none⟩) = .returned ()
    ∧ calls (teardown 3) succeeding (created succeeding ⟨"app://main", none⟩) =
        [⟨.Dart_EnterIsolate (some 1), .void⟩, ⟨.Dart_ShutdownIsolate, .void⟩] :=
  have h := teardown_shuts_down_once succeeding (created succeeding ⟨"app://main", none⟩)
    ⟨"app://main", some 1⟩ 3 (by decide) (by decide)
  ⟨h.1, h.2.1⟩

/-- C8: the teardown step on a controller on which `CreateIsolateFor` never
succeeded (`ui_dart_state_` is null) returns normally, makes no call and leaves
the controller and the thread unchanged. -/
theorem teardown_without_context (E : Env) (s : State) (hst : s.ctl.ui_dart_state_ = none) :
    outcome destructor E s = .returned () ∧ calls destructor E s = []
    ∧ after destructor E s = s := by
  simp [outcome, calls, after, destructor_none E s hst]

/-- C8 at the state the constructor leaves. -/
theorem teardown_without_context_witness :
    State.init.ctl.ui_dart_state_ = none
    ∧ outcome destructor succeeding State.init = .returned ()
    ∧ calls destructor succeeding State.init = []
    ∧ after destructor succeeding State.init = State.init :=
  ⟨rfl, teardown_without_context succeeding State.init rfl⟩

/-! ## Context creation -/

/-- The shape of the calls of a successful `CreateIsolateFor`. -/
theorem createCalls_shape (E : Env) (url : String) (i : Nat) (error : String)
    (tag : Dart_Handle) :
    (createCalls E url (some i) error tag).head? =
        some ⟨.Dart_CreateIsolate url "main", .isolate (some i) error⟩
    ∧ (createCalls E url (some i) error tag).getLast? = some ⟨.Dart_ExitIsolate, .void⟩
    ∧ (createCalls E url (some i) error tag).tail.dropLast.countP isIsolateSwitch = 0
    ∧ ∀ b ∈ bindingCalls url,
        (createCalls E url (some i) error tag).count b = 1
        ∧ b ∈ (createCalls E url (some i) error tag).tail.dropLast := by
  cases hA : E.OS_ANDROID <;>
    simp [createCalls, hA, bindingCalls, isIsolateSwitch, List.countP_cons, List.count_cons,
      List.dropLast]

/-- C9: when the engine creates the isolate (with a platform present and the tag
handler accepted) `CreateIsolateFor` returns; its first call is the creation and
its last the single `Dart_ExitIsolate`, with no enter, exit or shutdown in
between, so the context stays entered from its creation to that exit; each of the
four binding installations occurs exactly once, strictly between the two; on
return no isolate is entered and `ui_dart_state_` holds the state object with the
created isolate set.  When the engine returns a null isolate the operation
aborts with the engine's error message and the controller is unchanged. -/
theorem create_isolate_installs_bindings (E : Env) (s : State) (state : UIDartState) :
    (∀ i : Nat, E.isolate s.trace (.Dart_CreateIsolate state.url "main") = some i →
      E.Platform_current = true →
      (∀ t, Dart_IsError (E.handle t .Dart_SetLibraryTagHandler) = false) →
      outcome (CreateIsolateFor state) E s = .returned ()
      ∧ (calls (CreateIsolateFor state) E s).head? =
          some ⟨.Dart_CreateIsolate state.url "main",
            .isolate (some i) (E.error s.trace (.Dart_CreateIsolate state.url "main"))⟩
      ∧ (calls (CreateIsolateFor state) E s).getLast? = some ⟨.Dart_ExitIsolate, .void⟩
      ∧ (calls (CreateIsolateFor state) E s).tail.dropLast.countP isIsolateSwitch = 0
      ∧ (∀ b ∈ bindingCalls state.url,
          (calls (CreateIsolateFor state) E s).count b = 1
          ∧ b ∈ (calls (CreateIsolateFor state) E s).tail.dropLast)
      ∧ (after (CreateIsolateFor state) E s).current = none
      ∧ (after (CreateIsolateFor state) E s).ctl.ui_dart_state_ =
          some { state with isolate := some i })
    ∧ (E.isolate s.trace (.Dart_CreateIsolate state.url "main") = none →
      outcome (CreateIsolateFor state) E s =
          .aborted (E.error s.trace (.Dart_CreateIsolate state.url "main"))
      ∧ (after (CreateIsolateFor state) E s).ctl = s.ctl) := by
  constructor
  · intro i hengine hplatform htag
    obtain ⟨t, -, hgood⟩ := CreateIsolateFor_created E s state i hengine hplatform
    have hrun := hgood (htag t)
    have hcalls := calls_eq (CreateIsolateFor state) E s _ (by rw [hrun])
    have hshape := createCalls_shape E state.url i
      (E.error s.trace (.Dart_CreateIsolate state.url "main"))
      (E.handle t .Dart_SetLibraryTagHandler)
    rw [hcalls]
    refine ⟨by rw [outcome, hrun], hshape.1, hshape.2.1, hshape.2.2.1, hshape.2.2.2, ?_, ?_⟩
    · rw [after, hrun]
    · rw [after, hrun]
  · intro hengine
    rw [outcome, after, CreateIsolateFor_refused E s state hengine]
    exact ⟨rfl, rfl⟩

/-- C9 at concrete inputs: the engine `succeeding` creates isolate 1, the engine
`refusing` creates none. -/
theorem create_isolate_installs_bindings_witness :
    (outcome (CreateIsolateFor ⟨"app://main", none⟩) succeeding State.init = .returned ()
      ∧ (after (CreateIsolateFor ⟨"app://main", none⟩) succeeding State.init).current = none
      ∧ (after (CreateIsolateFor ⟨"app://main", none⟩) succeeding
          State.init).ctl.ui_dart_state_ = some ⟨"app://main", some 1⟩)
    ∧ (outcome (CreateIsolateFor ⟨"app://main", none⟩) refusing State.init =
          .aborted "Isolate creation failed"
      ∧ (after (CreateIsolateFor ⟨"app://main", none⟩) refusing State.init).ctl.ui_dart_state_
          = none) :=
  have h1 := (create_isolate_installs_bindings succeeding State.init ⟨"app://main", none⟩).1
    1 rfl rfl (fun _ => rfl)
  have h2 := (create_isolate_installs_bindings refusing State.init ⟨"app://main", none⟩).2 rfl
  ⟨⟨h1.1, h1.2.2.2.2.2.1, h1.2.2.2.2.2.2⟩, h2.1, by rw [h2.2]; rfl⟩

/-! ## Bootstrap -/

/-- A successful `CreateIsolateFor` sends no start message. -/
theorem createCalls_filter (E : Env) (url : String) (isolate : Dart_Isolate) (error : String)
    (tag : Dart_Handle) :
    (createCalls E url isolate error tag).filter isStartMessage = [] := by
  cases hA : E.OS_ANDROID <;> simp [createCalls, hA, isStartMessage]

/-- C1: after a successful `CreateIsolateFor` on a fresh controller, every
bootstrap path in which no engine call reports an error returns normally, and the
whole trace contains exactly one invocation of `_startMainIsolate`; its target is
the library the engine returned for `dart:isolate`. -/
theorem bootstrap_sends_start_once (E : Env) (state : UIDartState) (source : Source)
    (hcreate : outcome (CreateIsolateFor state) E State.init = .returned ())
    (hok : ∀ e ∈ calls (bootstrap source) E (created E state), isError e = false) :
    outcome (bootstrap source) E (created E state) = .returned ()
    ∧ (after (bootstrap source) E (created E state)).trace.countP isStartMessage = 1
    ∧ ∃ lib closure result,
        (after (bootstrap source) E (created E state)).trace.filter isStartMessage =
          [⟨.Dart_Invoke lib (ToDart "_startMainIsolate") [closure, Dart_Null],
            .handle result⟩]
        ∧ (⟨.Dart_LookupLibrary (ToDart "dart:isolate"), .handle lib⟩ : Event) ∈
            (after (bootstrap source) E (created E state)).trace := by
  obtain ⟨i, error, tag, -, hafter⟩ := CreateIsolateFor_returned E State.init state hcreate
  have hst : (created E state).ctl.ui_dart_state_ = some { state with isolate := some i } := by
    rw [created, hafter]
  have hcur : (created E state).current = none := by rw [created, hafter]
  obtain ⟨new, o, s1, hrun, ht, -, -, hboot⟩ :=
    bootstrap_run E (created E state) _ source hst (fun _ => hcur)
  have hcalls := calls_eq (bootstrap source) E (created E state) new (by rw [hrun, ht])
  rw [hcalls] at hok
  obtain ⟨ho, -, ui, lib, closure, result, hfilter, hlib, -⟩ := hboot.boot_no_error hok
  have htrace : (after (bootstrap source) E (created E state)).trace =
      createCalls E state.url (some i) error tag ++ new := by
    rw [after, hrun, ht, created, hafter]
    simp [State.init]
  have hfilter2 : (after (bootstrap source) E (created E state)).trace.filter isStartMessage =
      [⟨.Dart_Invoke lib (ToDart "_startMainIsolate") [closure, Dart_Null],
        .handle result⟩] := by
    rw [htrace, List.filter_append, createCalls_filter, hfilter, List.nil_append]
  refine ⟨by rw [outcome, hrun, ho], ?_, lib, closure, result, hfilter2, ?_⟩
  · rw [List.countP_eq_length_filter, hfilter2]
    rfl
  · rw [htrace]
    exact List.mem_append_right _ hlib

/-- C1 at a concrete input: the named script `main.dart` on the engine
`succeeding`. -/
theorem bootstrap_sends_start_once_witness :
    outcome (bootstrap (.library "main.dart" 0)) succeeding
        (created succeeding ⟨"app://main", none⟩) = .returned ()
    ∧ (after (bootstrap (.library "main.dart" 0)) succeeding
        (created succeeding ⟨"app://main", none⟩)).trace.countP isStartMessage = 1 :=
  have h := bootstrap_sends_start_once succeeding ⟨"app://main", none⟩
    (.library "main.dart" 0) (by decide) (by decide)
  ⟨h.1, h.2.1⟩

/-- C3: on a created context with no isolate entered, for every bootstrap path,
when the call that resolves the root library (`Dart_LookupLibrary(name)` for a
named script, `Dart_RootLibrary()` otherwise) answers an error handle, the
bootstrap ends in `exit(1)`: it does not return, and it has made no
`Dart_IsolateMakeRunnable` call and no `_startMainIsolate` invocation. -/
theorem root_library_error_is_fatal (E : Env) (s : State) (st : UIDartState)
    (source : Source) (e : Event)
    (hst : s.ctl.ui_dart_state_ = some st)
    (hcur : E.DCHECK_IS_ON = true → s.current = none)
    (hfirst : (calls (bootstrap source) E s).find? (fun e => e.call == rootCall source)
      = some e)
    (herr : isError e = true) :
    outcome (bootstrap source) E s = .exited 1
    ∧ (calls (bootstrap source) E s).countP isMakeRunnable = 0
    ∧ (calls (bootstrap source) E s).countP isStartMessage = 0 := by
  obtain ⟨new, o, s1, hrun, ht, -, -, hboot⟩ := bootstrap_run E s st source hst hcur
  have hcalls := calls_eq (bootstrap source) E s new (by rw [hrun, ht])
  rw [hcalls] at hfirst ⊢
  obtain ⟨ho, h1, h2⟩ := hboot.root_error_exits e hfirst herr
  exact ⟨by rw [outcome, hrun, ho], h1, h2⟩

/-- C3 at a concrete input: an engine whose `Dart_RootLibrary` answers an error. -/
theorem root_library_error_is_fatal_witness :
    outcome (bootstrap .precompiled) noRoot (created noRoot ⟨"app://main", none⟩) = .exited 1
    ∧ (calls (bootstrap .precompiled) noRoot
        (created noRoot ⟨"app://main", none⟩)).countP isMakeRunnable = 0
    ∧ (calls (bootstrap .precompiled) noRoot
        (created noRoot ⟨"app://main", none⟩)).countP isStartMessage = 0 :=
  root_library_error_is_fatal noRoot (created noRoot ⟨"app://main", none⟩)
    ⟨"app://main", some 1⟩ .precompiled
    ⟨.Dart_RootLibrary, .handle (.error "no root library")⟩ (by decide) (by decide)
    (by decide) (by decide)

/-- The calls of two operations run one after the other, when the first returns. -/
theorem seq_run (m1 m2 : M Unit) (E : Env) (s s1 : State)
    (h : m1 E s = (.returned (), s1)) : (do m1; m2) E s = m2 E s1 := by
  simp [bind_run, M.bind, h]

/-- Two operations run one after the other, when the first does not return. -/
theorem seq_stop (m1 m2 : M Unit) (E : Env) (s s1 : State) (o : Outcome Unit)
    (h : m1 E s = (o, s1)) (ho : o ≠ .returned ()) :
    ((do m1; m2) E s).2 = s1 := by
  rcases o with ⟨⟩ | c | w
  · exact (ho rfl).elim
  · simp [bind_run, M.bind, h]
  · simp [bind_run, M.bind, h]

/-- C4, as amended: the controller has no bootstrap-once guard.  On a created
context with no isolate entered, each bootstrap makes at most one
`Dart_IsolateMakeRunnable` call and at most one `_startMainIsolate` invocation, so
two bootstraps one after the other make at most two of each; and when the first
returned normally and no engine call of the second reports an error, the second
returns normally too, having made its own `Dart_IsolateMakeRunnable` call and
its own `_startMainIsolate` invocation. -/
theorem bootstrap_is_not_guarded (E : Env) (s : State) (st : UIDartState)
    (first second : Source)
    (hst : s.ctl.ui_dart_state_ = some st)
    (hcur : E.DCHECK_IS_ON = true → s.current = none) :
    (calls (do bootstrap first; bootstrap second) E s).countP isMakeRunnable ≤ 2
    ∧ (calls (do bootstrap first; bootstrap second) E s).countP isStartMessage ≤ 2
    ∧ (calls (bootstrap first) E s).countP isMakeRunnable ≤ 1
    ∧ (calls (bootstrap first) E s).countP isStartMessage ≤ 1
    ∧ (outcome (bootstrap first) E s = .returned () →
        (calls (bootstrap second) E (after (bootstrap first) E s)).countP isMakeRunnable ≤ 1
        ∧ (calls (bootstrap second) E (after (bootstrap first) E s)).countP isStartMessage ≤ 1
        ∧ ((∀ e ∈ calls (bootstrap second) E (after (bootstrap first) E s),
              isError e = false) →
            outcome (bootstrap second) E (after (bootstrap first) E s) = .returned ()
            ∧ (calls (bootstrap second) E (after (bootstrap first) E s)).countP
                isMakeRunnable = 1
            ∧ (calls (bootstrap second) E (after (bootstrap first) E s)).countP
                isStartMessage = 1)) := by
  obtain ⟨new1, o1, s1, hrun1, ht1, hst1, hcur1, hboot1⟩ :=
    bootstrap_run E s st first hst hcur
  have hcalls1 := calls_eq (bootstrap first) E s new1 (by rw [hrun1, ht1])
  have hle1 := hboot1.counts_le
  by_cases ho : o1 = .returned ()
  · subst ho
    obtain ⟨new2, o2, s2, hrun2, ht2, -, -, hboot2⟩ :=
      bootstrap_run E s1 st second hst1 (fun _ => hcur1 rfl)
    have hafter : after (bootstrap first) E s = s1 := by rw [after, hrun1]
    have hcalls2 := calls_eq (bootstrap second) E s1 new2 (by rw [hrun2, ht2])
    have hle2 := hboot2.counts_le
    have hseq : calls (do bootstrap first; bootstrap second) E s = new1 ++ new2 := by
      apply calls_eq
      rw [seq_run _ _ E s s1 hrun1, hrun2, ht2, ht1, List.append_assoc]
    rw [hseq, hcalls1, hafter, hcalls2, List.countP_append, List.countP_append]
    refine ⟨by omega, by omega, hle1.1, hle1.2, fun _ => ⟨hle2.1, hle2.2, fun hok => ?_⟩⟩
    obtain ⟨ho2, hm, ui, lib, closure, result, hfilter, -, -⟩ := hboot2.boot_no_error hok
    refine ⟨by rw [outcome, hrun2, ho2], hm, ?_⟩
    rw [List.countP_eq_length_filter, hfilter]
    rfl
  · have hseq : calls (do bootstrap first; bootstrap second) E s = new1 := by
      apply calls_eq
      rw [seq_stop _ _ E s s1 o1 hrun1 ho, ht1]
    rw [hseq, hcalls1]
    refine ⟨by omega, by omega, hle1.1, hle1.2, fun h => ?_⟩
    rw [outcome, hrun1] at h
    exact (ho h).elim

/-- C4, as amended, at a concrete input: two bootstraps from the precompiled
snapshot on the engine `succeeding`. -/
theorem bootstrap_is_not_guarded_witness :
    (calls (do bootstrap .precompiled; bootstrap .precompiled) succeeding
        (created succeeding ⟨"app://main", none⟩)).countP isMakeRunnable ≤ 2
    ∧ (calls (do bootstrap .precompiled; bootstrap .precompiled) succeeding
        (created succeeding ⟨"app://main", none⟩)).countP isStartMessage ≤ 2 :=
  have h := bootstrap_is_not_guarded succeeding (created succeeding ⟨"app://main", none⟩)
    ⟨"app://main", some 1⟩ .precompiled .precompiled (by decide) (by decide)
  ⟨h.1, h.2.1⟩

/-- C4 fails as stated: on the engine `succeeding`, a second bootstrap on the same
context is not rejected; it returns normally, and the two bootstraps together make
two `Dart_IsolateMakeRunnable` calls and two `_startMainIsolate` invocations. -/
theorem second_bootstrap_is_not_rejected :
    outcome (bootstrap .precompiled) succeeding
        (after (bootstrap .precompiled) succeeding (created succeeding ⟨"app://main", none⟩))
      = .returned ()
    ∧ (calls (do bootstrap .precompiled; bootstrap .precompiled) succeeding
        (created succeeding ⟨"app://main", none⟩)).countP isMakeRunnable = 2
    ∧ (calls (do bootstrap .precompiled; bootstrap .precompiled) succeeding
        (created succeeding ⟨"app://main", none⟩)).countP isStartMessage = 2 := by
  decide

/-- C5 fails on the code: with a snapshot buffer for which
`Dart_LoadScriptFromSnapshot` answers an error, `RunFromSnapshotBuffer` logs the
error and goes on; it returns normally after making the isolate runnable and
sending the start message.  Likewise an error answered by
`Dart_LibraryImportLibrary` is dropped: `SendStartMessage` returns `false`. -/
theorem snapshot_load_error_is_swallowed :
    (⟨.Dart_LoadScriptFromSnapshot [0, 1, 2], .handle (.error "malformed snapshot")⟩ : Event)
        ∈ calls (RunFromSnapshotBuffer [0, 1, 2]) malformedSnapshot
            (created malformedSnapshot ⟨"app://main", none⟩)
    ∧ outcome (RunFromSnapshotBuffer [0, 1, 2]) malformedSnapshot
        (created malformedSnapshot ⟨"app://main", none⟩) = .returned ()
    ∧ (calls (RunFromSnapshotBuffer [0, 1, 2]) malformedSnapshot
        (created malformedSnapshot ⟨"app://main", none⟩)).countP isMakeRunnable = 1
    ∧ (calls (RunFromSnapshotBuffer [0, 1, 2]) malformedSnapshot
        (created malformedSnapshot ⟨"app://main", none⟩)).countP isStartMessage = 1
    ∧ (calls (SendStartMessage (.object 0)) importFails
        (entered importFails ⟨"app://main", none⟩)).countP isError = 1
    ∧ outcome (SendStartMessage (.object 0)) importFails
        (entered importFails ⟨"app://main", none⟩) = .returned false := by
  decide

/-! ## The start protocol -/

/-- Every run of `SendStartMessage` begins by exiting the isolate, making it
runnable and entering it again; nothing else switches isolates or makes it
runnable. -/
theorem StartRun.shape {isolate : Dart_Isolate} {root : Dart_Handle} {sent : List Event}
    {o : Outcome Bool} (h : StartRun isolate root sent o) :
    ∃ b rest, sent = makeRunnableCalls isolate b ++ rest
      ∧ rest.countP isMakeRunnable = 0 ∧ rest.countP isIsolateSwitch = 0 := by
  cases h with
  | ui_invalid b m => exact ⟨b, _, rfl, by simp [isMakeRunnable], by simp [isIsolateSwitch]⟩
  | isolate_invalid b ui m hui =>
      exact ⟨b, _, rfl, by simp [isMakeRunnable], by simp [isIsolateSwitch]⟩
  | no_main b ui lib imp m hui hlib =>
      exact ⟨b, _, rfl, by simp [isMakeRunnable], by simp [isIsolateSwitch]⟩
  | start_failed b ui lib imp closure m hui hlib hclosure =>
      exact ⟨b, _, rfl, by simp [isMakeRunnable], by simp [isIsolateSwitch]⟩
  | started b ui lib imp closure result hui hlib hclosure hresult =>
      exact ⟨b, _, rfl, by simp [isMakeRunnable], by simp [isIsolateSwitch]⟩

/-- A run of `SendStartMessage` returns `true` exactly when the entry-point lookup
or the dispatch answered an error. -/
theorem StartRun.failure_iff {isolate : Dart_Isolate} {root : Dart_Handle}
    {sent : List Event} {b : Bool} (h : StartRun isolate root sent (.returned b)) :
    b = true ↔ ∃ e ∈ sent, isStartFailure e = true := by
  cases h with
  | no_main b ui lib imp m hui hlib =>
      simp [makeRunnableCalls, isStartFailure, isMainClosureLookup, isStartMessage, isError,
        Dart_IsError, ToDart]
  | start_failed b ui lib imp closure m hui hlib hclosure =>
      simp [makeRunnableCalls, isStartFailure, isMainClosureLookup, isStartMessage, isError,
        Dart_IsError, ToDart]
  | started b ui lib imp closure result hui hlib hclosure hresult =>
      simp [makeRunnableCalls, isStartFailure, isMainClosureLookup, isStartMessage, isError,
        hclosure, hresult, ToDart]

/-- A run of `SendStartMessage` with a failed lookup or dispatch returns `true`. -/
theorem StartRun.failure_returns {isolate : Dart_Isolate} {root : Dart_Handle}
    {sent : List Event} {o : Outcome Bool} (h : StartRun isolate root sent o)
    (hfail : ∃ e ∈ sent, isStartFailure e = true) : o = .returned true := by
  cases h with
  | ui_invalid b m =>
      simp [makeRunnableCalls, isStartFailure, isMainClosureLookup, isStartMessage] at hfail
  | isolate_invalid b ui m hui =>
      simp [makeRunnableCalls, isStartFailure, isMainClosureLookup, isStartMessage] at hfail
  | no_main b ui lib imp m hui hlib => rfl
  | start_failed b ui lib imp closure m hui hlib hclosure => rfl
  | started b ui lib imp closure result hui hlib hclosure hresult =>
      simp [makeRunnableCalls, isStartFailure, isMainClosureLookup, isStartMessage, isError,
        hclosure, hresult, ToDart] at hfail

/-- After a failed entry-point lookup the start message is not sent. -/
theorem StartRun.no_dispatch {isolate : Dart_Isolate} {root : Dart_Handle}
    {sent : List Event} {o : Outcome Bool} (h : StartRun isolate root sent o)
    (hfail : ∃ e ∈ sent, isMainClosureLookup e = true ∧ isError e = true) :
    sent.countP isStartMessage = 0 := by
  cases h with
  | ui_invalid b m => simp [makeRunnableCalls, isStartMessage]
  | isolate_invalid b ui m hui => simp [makeRunnableCalls, isStartMessage]
  | no_main b ui lib imp m hui hlib => simp [makeRunnableCalls, isStartMessage, ToDart]
  | start_failed b ui lib imp closure m hui hlib hclosure =>
      simp [makeRunnableCalls, isMainClosureLookup, isError, hclosure, ToDart] at hfail
  | started b ui lib imp closure result hui hlib hclosure hresult =>
      simp [makeRunnableCalls, isMainClosureLookup, isError, hclosure, ToDart] at hfail

/-- A caller of `SendStartMessage` whose own calls invoke nothing ends in `exit(1)`
when the entry-point lookup or the dispatch answered an error. -/
theorem RootRun.failure_exits {isolate : Dart_Isolate} {pre suf new : List Event}
    {root : Call} {o : Outcome Unit} (h : RootRun isolate pre root suf new o)
    (hpre : ∀ e ∈ pre, isStartFailure e = false)
    (hroot : ∀ reply, isStartFailure ⟨root, reply⟩ = false)
    (hsuf : ∀ e ∈ suf, isStartFailure e = false)
    (hfail : ∃ e ∈ new, isStartFailure e = true) : o = .exited 1 := by
  obtain ⟨e, he, hfe⟩ := hfail
  cases h with
  | root_error m => rfl
  | start_aborted library sent w hlibrary hsent =>
      rcases List.mem_append.1 he with h1 | h1
      · rw [hpre e h1] at hfe
        cases hfe
      · rcases List.mem_cons.1 h1 with h2 | h2
        · rw [h2, hroot] at hfe
          cases hfe
        · cases hsent.failure_returns ⟨e, h2, hfe⟩
  | start_failed library sent hlibrary hsent => rfl
  | started library sent hlibrary hsent =>
      rcases List.mem_append.1 he with h1 | h1
      · rw [hpre e h1] at hfe
        cases hfe
      · rcases List.mem_cons.1 h1 with h2 | h2
        · rw [h2, hroot] at hfe
          cases hfe
        · rcases List.mem_append.1 h2 with h3 | h3
          · cases hsent.failure_returns ⟨e, h3, hfe⟩
          · rw [hsuf e h3] at hfe
            cases hfe

/-- The start message carries the closure that `_getMainClosure` returned and
`Dart_Null()`. -/
theorem StartRun.start_arguments {isolate : Dart_Isolate} {root : Dart_Handle}
    {sent : List Event} {o : Outcome Bool} (h : StartRun isolate root sent o) :
    ∀ e ∈ sent, isStartMessage e = true →
      ∃ ui closure, arguments e = [closure, Dart_Null]
        ∧ (⟨.Dart_Invoke ui (ToDart "_getMainClosure") [], .handle closure⟩ : Event) ∈ sent
        ∧ Dart_IsError closure = false := by
  cases h with
  | ui_invalid b m => simp [makeRunnableCalls, isStartMessage]
  | isolate_invalid b ui m hui => simp [makeRunnableCalls, isStartMessage]
  | no_main b ui lib imp m hui hlib => simp [makeRunnableCalls, isStartMessage, ToDart]
  | start_failed b ui lib imp closure m hui hlib hclosure =>
      simp only [makeRunnableCalls, List.cons_append, List.nil_append, List.mem_cons,
        List.mem_singleton, List.not_mem_nil, or_false]
      rintro e (rfl | rfl | rfl | rfl | rfl | rfl | rfl | rfl | rfl | rfl) he <;>
        first
        | (simp [isStartMessage, ToDart] at he; done)
        | exact ⟨ui, closure, rfl, by simp, hclosure⟩
  | started b ui lib imp closure result hui hlib hclosure hresult =>
      simp only [makeRunnableCalls, List.cons_append, List.nil_append, List.mem_cons,
        List.mem_singleton, List.not_mem_nil, or_false]
      rintro e (rfl | rfl | rfl | rfl | rfl | rfl | rfl | rfl) he <;>
        first
        | (simp [isStartMessage, ToDart] at he; done)
        | exact ⟨ui, closure, rfl, by simp, hclosure⟩

/-- C6: every execution of `SendStartMessage` on a created context whose isolate
is the current one starts with `Dart_ExitIsolate`, `Dart_IsolateMakeRunnable` of
that isolate and `Dart_EnterIsolate` of the same isolate; these are its only
isolate switches and its only `Dart_IsolateMakeRunnable` call, so the transition
happens exactly once, while the isolate is exited, and before any
`_startMainIsolate` invocation; the same isolate is current afterwards. -/
theorem send_start_makes_runnable_first (E : Env) (s : State) (st : UIDartState)
    (root : Dart_Handle)
    (hst : s.ctl.ui_dart_state_ = some st) (hcur : s.current = st.isolate) :
    (∃ b rest, calls (SendStartMessage root) E s =
        [⟨.Dart_ExitIsolate, .void⟩, ⟨.Dart_IsolateMakeRunnable st.isolate, .bool b⟩,
         ⟨.Dart_EnterIsolate st.isolate, .void⟩] ++ rest
      ∧ rest.countP isMakeRunnable = 0 ∧ rest.countP isIsolateSwitch = 0
      ∧ rest.filter isStartMessage = (calls (SendStartMessage root) E s).filter isStartMessage)
    ∧ (calls (SendStartMessage root) E s).countP isMakeRunnable = 1
    ∧ (after (SendStartMessage root) E s).current = s.current := by
  obtain ⟨sent, o, hrun, hsent⟩ := SendStartMessage_run E s st root _ rfl hst (fun _ => hcur)
  have hcalls := calls_eq (SendStartMessage root) E s sent (by rw [hrun])
  obtain ⟨b, rest, hshape, h1, h2⟩ := hsent.shape
  rw [hcalls]
  refine ⟨⟨b, rest, hshape, h1, h2, ?_⟩, hsent.makeRunnable_count, ?_⟩
  · rw [hshape]
    simp [makeRunnableCalls, isStartMessage]
  · rw [after, hrun, hcur]

/-- C6 at a concrete input: the engine `succeeding`, the context entered. -/
theorem send_start_makes_runnable_first_witness :
    (calls (SendStartMessage (.object 0)) succeeding
        (entered succeeding ⟨"app://main", none⟩)).countP isMakeRunnable = 1
    ∧ (after (SendStartMessage (.object 0)) succeeding
        (entered succeeding ⟨"app://main", none⟩)).current = some 1 :=
  have h := send_start_makes_runnable_first succeeding (entered succeeding ⟨"app://main", none⟩)
    ⟨"app://main", some 1⟩ (.object 0) (by decide) (by decide)
  ⟨h.2.1, h.2.2⟩

/-- C7: on a created context, `SendStartMessage` returns `true` exactly when the
entry-point lookup (`_getMainClosure`) or the start-message dispatch
(`_startMainIsolate`) answered an error handle; after a failed lookup it returns
`true` without attempting the dispatch; and each caller (`DidLoadMainLibrary`,
`DidLoadSnapshot`, `RunFromSnapshotBuffer`) ends in `exit(1)` when the lookup or
the dispatch failed. -/
theorem start_failure_is_fatal (E : Env) (s s0 : State) (st : UIDartState)
    (root : Dart_Handle) (name : String) (buffer : List Nat)
    (hst : s.ctl.ui_dart_state_ = some st)
    (hcur : E.DCHECK_IS_ON = true → s.current = st.isolate)
    (hst0 : s0.ctl.ui_dart_state_ = some st)
    (hcur0 : E.DCHECK_IS_ON = true → s0.current = none) :
    (outcome (SendStartMessage root) E s = .returned true ↔
        ∃ e ∈ calls (SendStartMessage root) E s, isStartFailure e = true)
    ∧ ((∃ e ∈ calls (SendStartMessage root) E s,
          isMainClosureLookup e = true ∧ isError e = true) →
        (calls (SendStartMessage root) E s).countP isStartMessage = 0)
    ∧ ((∃ e ∈ calls (DidLoadMainLibrary name) E s, isStartFailure e = true) →
        outcome (DidLoadMainLibrary name) E s = .exited 1)
    ∧ ((∃ e ∈ calls DidLoadSnapshot E s0, isStartFailure e = true) →
        outcome DidLoadSnapshot E s0 = .exited 1)
    ∧ ((∃ e ∈ calls (RunFromSnapshotBuffer buffer) E s0, isStartFailure e = true) →
        outcome (RunFromSnapshotBuffer buffer) E s0 = .exited 1) := by
  refine ⟨?_, ?_, ?_, ?_, ?_⟩
  · obtain ⟨sent, o, hrun, hsent⟩ := SendStartMessage_run E s st root _ rfl hst hcur
    have hcalls := calls_eq (SendStartMessage root) E s sent (by rw [hrun])
    rw [hcalls, outcome, hrun]
    constructor
    · intro ho
      simp only at ho
      subst ho
      exact hsent.failure_iff.1 rfl
    · intro hfail
      rw [hsent.failure_returns hfail]
  · obtain ⟨sent, o, hrun, hsent⟩ := SendStartMessage_run E s st root _ rfl hst hcur
    have hcalls := calls_eq (SendStartMessage root) E s sent (by rw [hrun])
    rw [hcalls]
    exact hsent.no_dispatch
  · obtain ⟨r, new, o, s1, hrun, ht, -, -, hcase⟩ :=
      DidLoadMainLibrary_run E s st name _ rfl hst hcur
    have hcalls := calls_eq (DidLoadMainLibrary name) E s new (by rw [hrun, ht])
    rw [hcalls, outcome, hrun]
    intro hfail
    rcases hcase with ⟨m, rfl, rfl, rfl⟩ | ⟨hr, hroot⟩
    · simp [isStartFailure, isMainClosureLookup, isStartMessage] at hfail
    · exact hroot.failure_exits
        (by simp [isStartFailure, isMainClosureLookup, isStartMessage])
        (by simp [isStartFailure, isMainClosureLookup, isStartMessage])
        (by simp [isStartFailure, isMainClosureLookup, isStartMessage]) hfail
  · obtain ⟨new, o, s1, hrun, ht, -, -, hroot⟩ := DidLoadSnapshot_run E s0 st _ rfl hst0 hcur0
    have hcalls := calls_eq DidLoadSnapshot E s0 new (by rw [hrun, ht])
    rw [hcalls, outcome, hrun]
    intro hfail
    exact hroot.failure_exits
      (by simp [bootPrefix, isStartFailure, isMainClosureLookup, isStartMessage])
      (by simp [isStartFailure, isMainClosureLookup, isStartMessage])
      (by simp [bootSuffix, isStartFailure, isMainClosureLookup, isStartMessage]) hfail
  · obtain ⟨r, new, o, s1, hrun, ht, -, -, hroot⟩ :=
      RunFromSnapshotBuffer_run E s0 st buffer hst0
    have hcalls := calls_eq (RunFromSnapshotBuffer buffer) E s0 new (by rw [hrun, ht])
    rw [hcalls, outcome, hrun]
    intro hfail
    exact hroot.failure_exits
      (fun e he => by
        have := bootPrefix_invoke st.isolate r (.buffer buffer) e he
        simp [isStartFailure, this.1, this.2])
      (by simp [isStartFailure, isMainClosureLookup, isStartMessage])
      (by simp [bootSuffix, isStartFailure, isMainClosureLookup, isStartMessage]) hfail

/-- C7 at a concrete input: an engine whose `_getMainClosure` answers an error. -/
theorem start_failure_is_fatal_witness :
    outcome (SendStartMessage (.object 0)) noMain (entered noMain ⟨"app://main", none⟩)
      = .returned true
    ∧ (calls (SendStartMessage (.object 0)) noMain
        (entered noMain ⟨"app://main", none⟩)).countP isStartMessage = 0
    ∧ outcome (DidLoadMainLibrary "main.dart") noMain (entered noMain ⟨"app://main", none⟩)
      = .exited 1
    ∧ outcome DidLoadSnapshot noMain (created noMain ⟨"app://main", none⟩) = .exited 1
    ∧ outcome (RunFromSnapshotBuffer [0]) noMain (created noMain ⟨"app://main", none⟩)
      = .exited 1 :=
  have h := start_failure_is_fatal noMain (entered noMain ⟨"app://main", none⟩)
    (created noMain ⟨"app://main", none⟩) ⟨"app://main", some 1⟩ (.object 0) "main.dart" [0]
    (by decide) (by decide) (by decide) (by decide)
  ⟨h.1.2 (by decide), h.2.1 (by decide), h.2.2.1 (by decide), h.2.2.2.1 (by decide),
    h.2.2.2.2 (by decide)⟩

/-- C10, as amended: whenever `SendStartMessage` dispatches the start message, the
`_startMainIsolate` invocation carries exactly two arguments: the first is the
entry-point closure returned by `_getMainClosure`, and the second is the null
handle `Dart_Null()`, not a list. -/
theorem start_message_arguments (E : Env) (s : State) (st : UIDartState) (root : Dart_Handle)
    (hst : s.ctl.ui_dart_state_ = some st)
    (hcur : E.DCHECK_IS_ON = true → s.current = st.isolate) :
    ∀ e ∈ calls (SendStartMessage root) E s, isStartMessage e = true →
      ∃ ui closure, arguments e = [closure, Dart_Null]
        ∧ (⟨.Dart_Invoke ui (ToDart "_getMainClosure") [], .handle closure⟩ : Event) ∈
            calls (SendStartMessage root) E s
        ∧ Dart_IsError closure = false
        ∧ Dart_IsList Dart_Null = false := by
  obtain ⟨sent, o, hrun, hsent⟩ := SendStartMessage_run E s st root _ rfl hst hcur
  have hcalls := calls_eq (SendStartMessage root) E s sent (by rw [hrun])
  rw [hcalls]
  intro e he hstart
  obtain ⟨ui, closure, h1, h2, h3⟩ := hsent.start_arguments e he hstart
  exact ⟨ui, closure, h1, h2, h3, rfl⟩

/-- C10, as amended, at a concrete input: the start message dispatched on the
engine `succeeding` with the context entered. -/
theorem start_message_arguments_witness :
    ∃ ui closure,
      arguments ⟨.Dart_Invoke (.object 19) (ToDart "_startMainIsolate")
          [.object 21, Dart_Null], .handle (.object 22)⟩ = [closure, Dart_Null]
      ∧ (⟨.Dart_Invoke ui (ToDart "_getMainClosure") [], .handle closure⟩ : Event) ∈
          calls (SendStartMessage (.object 0)) succeeding
            (entered succeeding ⟨"app://main", none⟩)
      ∧ Dart_IsError closure = false
      ∧ Dart_IsList Dart_Null = false :=
  start_message_arguments succeeding (entered succeeding ⟨"app://main", none⟩)
    ⟨"app://main", some 1⟩ (.object 0) (by decide) (by decide)
    ⟨.Dart_Invoke (.object 19) (ToDart "_startMainIsolate") [.object 21, Dart_Null],
      .handle (.object 22)⟩ (by decide) (by decide)

/-- C10 fails as stated: on the engine `succeeding` the start message is
dispatched, and its second argument is not an empty list (it is not a list). -/
theorem start_message_second_argument_is_not_a_list :
    ¬ ∀ e ∈ calls (SendStartMessage (.object 0)) succeeding
        (entered succeeding ⟨"app://main", none⟩), isStartMessage e = true →
      (arguments e).length = 2 ∧ (arguments e).drop 1 = [Dart_Handle.list 0] := by
  decide

end blink
